import Mathlib

/-!
Verification of the CMGen scene-detection engine (package `detector`).

The Go source is shallowly embedded: `float64` values are modelled as `ℚ`
(the detection pipeline only performs field arithmetic and comparisons),
Go `int` as `ℤ` (with `goTrunc` for the truncating float-to-int conversion),
fallible subprocess invocations as `Option` inputs, and the two runtime
panic paths of `selectRepresentativeScenes` (negative `make` length and a
negative segment index) as `Option.none` results.  `strconv.ParseFloat` is
an abstract parameter `pf : List Char → Option ℚ` (`none` models a parse
error; the Go pattern `x, _ = strconv.ParseFloat(s, 64)` becomes
`(pf s).getD 0`).  Strings are modelled at the character level
(`List Char`), matching Go's treatment of tool output as text.
`rand.Float64()` is modelled by a stream `ℕ → ℚ` of draws (the `i`-th
non-zero fallback chapter consumes draw `i`); a value in `[0, 1)` models a
genuine draw.  Go's `sort.Slice` (unstable) is modelled by insertion sort;
none of the verified properties depend on tie order.
-/

namespace CMGen

/-- Scene from detector.go: a candidate chapter point. -/
structure Scene where
  timestamp : ℚ
  frame : ℤ
  score : ℚ
deriving DecidableEq

/-- SceneDetector configuration (threshold, minGap, minDuration, maxScenes). -/
structure SceneDetector where
  threshold : ℚ
  minGap : ℚ
  minDuration : ℚ
  maxScenes : ℤ
deriving DecidableEq

/-- Go's truncating conversion `int(q)` from a float, rounds toward zero. -/
def goTrunc (q : ℚ) : ℤ :=
  if q < 0 then -⌊-q⌋ else ⌊q⌋

/-- Ordering used by every `sort.Slice(..., ts i < ts j)` call in the source. -/
def sceneLE (a b : Scene) : Prop := a.timestamp ≤ b.timestamp

instance : DecidableRel sceneLE := fun a b => inferInstanceAs (Decidable (a.timestamp ≤ b.timestamp))

instance : IsTotal Scene sceneLE := ⟨fun a b => le_total a.timestamp b.timestamp⟩

instance : IsTrans Scene sceneLE := ⟨fun _ _ _ h h' => le_trans h h'⟩

/-- Model of `sort.Slice(scenes, func(i, j) { return ts i < ts j })`. -/
def sortScenes (l : List Scene) : List Scene := l.insertionSort sceneLE

/-- Model of `strings.Split(s, "\n")` at the character level. -/
def goSplitLines (output : List Char) : List (List Char) :=
  output.splitOnP (fun c => c = '\n')

/-- Model of `strings.Fields`: maximal runs of non-whitespace characters. -/
def goFields (line : List Char) : List (List Char) :=
  (line.splitOnP (fun c => c.isWhitespace)).filter (fun f => f ≠ [])

/-- Model of `strings.Contains(line, sub)`. -/
def goContains (line sub : List Char) : Prop := sub <:+: line

instance (line sub : List Char) : Decidable (goContains line sub) :=
  inferInstanceAs (Decidable (sub <:+: line))

/-- Model of `strings.TrimSpace`. -/
def goTrimSpace (s : List Char) : List Char :=
  ((s.dropWhile Char.isWhitespace).reverse.dropWhile Char.isWhitespace).reverse

/-- One line of `detectScenesByThreshold`'s parse loop (lines 228-257): a line
holding both a `pts_time:` and a `score:` token is scanned field by field, the
last `pts_time:`/`score:` field winning; the scene is kept only when
`0 < timestamp < duration - 5`. -/
def thresholdLineScenes (pf : List Char → Option ℚ) (duration : ℚ) (line : List Char) :
    List Scene :=
  if goContains line "pts_time:".data ∧ goContains line "score:".data then
    let fields := goFields line
    let timestamp := fields.foldl (fun t f =>
      if List.isPrefixOf "pts_time:".data f then (pf (f.drop 9)).getD 0 else t) 0
    let score := fields.foldl (fun sc f =>
      if List.isPrefixOf "score:".data f then (pf (f.drop 6)).getD 0 else sc) 0
    if 0 < timestamp ∧ timestamp < duration - 5 then [Scene.mk timestamp 0 score] else []
  else []

/-- detectScenesByThreshold's pure part: parse the ffmpeg output (lines 224-260). -/
def detectScenesByThreshold (pf : List Char → Option ℚ) (duration : ℚ) (output : List Char) :
    List Scene :=
  (goSplitLines output).foldl (fun scenes line => scenes ++ thresholdLineScenes pf duration line) []

/-- One line of `detectScenesByInterval`'s parse loop (lines 281-299). -/
def intervalLineScenes (pf : List Char → Option ℚ) (duration : ℚ) (line : List Char) :
    List Scene :=
  if goContains line "pts_time:".data then
    let fields := goFields line
    let timestamp := fields.foldl (fun t f =>
      if List.isPrefixOf "pts_time:".data f then (pf (f.drop 9)).getD 0 else t) 0
    if 30 < timestamp ∧ timestamp < duration - 30 then [Scene.mk timestamp 0 (1/2)] else []
  else []

/-- detectScenesByInterval's pure part (lines 279-302). -/
def detectScenesByInterval (pf : List Char → Option ℚ) (duration : ℚ) (output : List Char) :
    List Scene :=
  (goSplitLines output).foldl (fun scenes line => scenes ++ intervalLineScenes pf duration line) []

/-- detectVisualScenes (lines 179-205): threshold errors yield an empty list; on a
long video with fewer than 5 scenes, the interval detector replaces the result
only when it succeeded and found strictly more scenes.  Always succeeds. -/
def detectVisualScenes (thresholdResult : Option (List Scene))
    (intervalResult : Option (List Scene)) (duration : ℚ) : List Scene :=
  let scenes := thresholdResult.getD []
  if scenes.length < 5 ∧ 300 < duration then
    match intervalResult with
    | some alternativeScenes =>
        if scenes.length < alternativeScenes.length then alternativeScenes else scenes
    | none => scenes
  else scenes

/-- One line of `detectSilence`'s parse loop (lines 357-380): every field with a
`silence_end:` token emits a scene; the score is the base score, boosted
(capped at 0.9) when the field two places later is a `silence_duration:` field. -/
def silenceLineScenes (pf : List Char → Option ℚ) (baseScore : ℚ) (line : List Char) :
    List Scene :=
  if goContains line "silence_end".data then
    let fields := goFields line
    (List.range fields.length).filterMap (fun i =>
      let f := fields.getD i []
      if List.isPrefixOf "silence_end:".data f then
        let timestamp := (pf (f.drop 12)).getD 0
        let score :=
          if i + 2 < fields.length ∧
              List.isPrefixOf "silence_duration:".data (fields.getD (i + 2) []) then
            min (9/10) (baseScore + (pf ((fields.getD (i + 2) []).drop 17)).getD 0 / 5)
          else baseScore
        some (Scene.mk timestamp 0 score)
      else none)
  else []

/-- detectSilence's pure part (lines 354-383). -/
def detectSilence (pf : List Char → Option ℚ) (baseScore : ℚ) (output : List Char) :
    List Scene :=
  (goSplitLines output).foldl (fun scenes line => scenes ++ silenceLineScenes pf baseScore line) []

/-- detectSpeechPauses (lines 405-420): the volume pass's output is discarded and
fixed-interval points are synthesized, one per 90 seconds, keeping
`30 < t < duration - 30`, score 0.4. -/
def detectSpeechPauses (duration : ℚ) : List Scene :=
  (List.range' 1 (goTrunc (duration / 90)).toNat).filterMap (fun (i : ℕ) =>
    if 30 < (i : ℚ) * 90 ∧ (i : ℚ) * 90 < duration - 30
    then some (Scene.mk ((i : ℚ) * 90) 0 (2/5))
    else none)

/-- detectAudioScenes (lines 306-337): first silence pass failing fails the whole
detector; second pass failing returns the first pass's scenes alone; otherwise
both passes are concatenated and sorted, and the speech-pause list (when its
command succeeded) is appended after the sort. -/
def detectAudioScenes (silence1 silence2 : Option (List Scene)) (duration : ℚ)
    (speechOk : Bool) : Option (List Scene) :=
  match silence1 with
  | none => none
  | some scenes1 =>
    match silence2 with
    | none => some scenes1
    | some scenes2 =>
      let allScenes := sortScenes (scenes1 ++ scenes2)
      some (if speechOk then allScenes ++ detectSpeechPauses duration else allScenes)

/-- The duration bucket rule, written identically in `createFallbackChapters`
(lines 426-436) and `intelligentFiltering` (lines 526-535). -/
def chapterCountFor (duration : ℚ) : ℤ :=
  if duration < 300 then 3
  else if duration < 900 then 5
  else if duration < 1800 then 8
  else 10 + goTrunc (duration / 1800)

/-- Loop body of createFallbackChapters (lines 449-466): chapter `i ≥ 1` sits at
`i*chapterDuration` plus a jitter of `chapterDuration * 0.1 * (rand.Float64() - 0.5)`,
clamped to `i*chapterDuration` when non-positive and to `duration - 10` when at
least `duration`. -/
def fallbackChapterAt (duration chapterDuration : ℚ) (randF : ℕ → ℚ) (i : ℕ) : Scene :=
  let jitter := chapterDuration * (1/10) * (randF i - 1/2)
  let timestamp := (i : ℚ) * chapterDuration + jitter
  let timestamp' := if timestamp ≤ 0 then (i : ℚ) * chapterDuration else timestamp
  let timestamp'' := if duration ≤ timestamp' then duration - 10 else timestamp'
  Scene.mk timestamp'' 0 (1/2)

/-- createFallbackChapters (lines 424-469): chapter 0 is fixed at `(0, 1.0)`;
chapters `1 .. chapterCount-1` come from the jittered loop body. -/
def createFallbackChapters (duration : ℚ) (randF : ℕ → ℚ) : List Scene :=
  let chapterCount := (chapterCountFor duration).toNat
  let chapterDuration := duration / (chapterCount : ℚ)
  Scene.mk 0 0 1 :: (List.range' 1 (chapterCount - 1)).map
    (fallbackChapterAt duration chapterDuration randF)

/-- One step of `combineScenes`'s merge scan (lines 490-502), on the reversed
accumulator paired with `lastTimestamp`: accept when the gap reaches `minGap`;
otherwise replace the last accepted scene only on a strictly higher score. -/
def combineStep (minGap : ℚ) (acc : List Scene × ℚ) (scene : Scene) : List Scene × ℚ :=
  if minGap ≤ scene.timestamp - acc.2 then (scene :: acc.1, scene.timestamp)
  else
    match acc.1 with
    | [] => acc
    | last :: rest =>
        if last.score < scene.score then (scene :: rest, scene.timestamp) else acc

/-- combineScenes (lines 472-505): an empty audio list short-circuits to the
visual list; otherwise concatenate, sort, and scan with `lastTimestamp`
seeded at -100. -/
def combineScenes (visualScenes audioScenes : List Scene) (minGap : ℚ) : List Scene :=
  if audioScenes = [] then visualScenes
  else
    (((sortScenes (visualScenes ++ audioScenes)).foldl (combineStep minGap) ([], -100)).1).reverse

/-- The segment index of a candidate (lines 568-571): truncating division with
overflow clamped to the last segment.  A resulting negative index makes the Go
slice write `segments[segment] = append(...)` panic. -/
def segIndex (segmentCount : ℤ) (segmentDuration : ℚ) (ts : ℚ) : ℤ :=
  let segment := goTrunc (ts / segmentDuration)
  if segmentCount ≤ segment then segmentCount - 1 else segment

/-- The combined score of lines 592-598: the scene score damped by the
normalized distance from the segment middle. -/
def combinedScore (segmentMiddle segmentDuration : ℚ) (s : Scene) : ℚ :=
  s.score * (1 - (|s.timestamp - segmentMiddle| / segmentDuration) / 2)

/-- Best scene of one segment (lines 576-607): a singleton segment is used as
is; otherwise scan with `bestScore` seeded at -1, keeping the first strict
improvement. -/
def bestInSegment (segmentMiddle segmentDuration : ℚ) (segment : List Scene) : Option Scene :=
  match segment with
  | [] => none
  | [s] => some s
  | s0 :: rest =>
      some (((s0 :: rest).foldl (fun (acc : ℚ × Scene) s =>
        if acc.1 < combinedScore segmentMiddle segmentDuration s
        then (combinedScore segmentMiddle segmentDuration s, s) else acc) (-1, s0)).2)

/-- Segment partition and per-segment choice of `selectRepresentativeScenes`
(lines 562-614), after the zero-chapter step fixed `kept`, the remaining
scenes and the segment count.  `none` models the two Go runtime panics:
`make([][]Scene, n)` with negative `n`, and a negative segment index (which
arises when `desiredCount` drops to zero, making `segmentDuration` infinite
and the overflow clamp produce `-1`). -/
def selectMain (kept rest : List Scene) (segmentCount : ℤ) (duration : ℚ) :
    Option (List Scene) :=
  if segmentCount < 0 then none
  else if rest.all (fun s =>
      0 ≤ segIndex segmentCount (duration / (segmentCount : ℚ)) s.timestamp) then
    some (sortScenes (kept ++ (List.range segmentCount.toNat).filterMap (fun (i : ℕ) =>
      bestInSegment
        ((i : ℚ) * (duration / (segmentCount : ℚ)) + (duration / (segmentCount : ℚ)) / 2)
        (duration / (segmentCount : ℚ))
        (rest.filter (fun s =>
          segIndex segmentCount (duration / (segmentCount : ℚ)) s.timestamp = (i : ℤ))))))
  else none

/-- selectRepresentativeScenes (lines 547-615): lists within the budget pass
through; a first sub-second scene is kept as the fixed zero-chapter with the
target reduced by one; the rest goes through the segment partition. -/
def selectRepresentativeScenes (scenes : List Scene) (desiredCount : ℤ) (duration : ℚ) :
    Option (List Scene) :=
  if (scenes.length : ℤ) ≤ desiredCount then some scenes
  else
    match scenes with
    | [] => none
    | s0 :: tail =>
      if s0.timestamp < 1 then selectMain [s0] tail (desiredCount - 1) duration
      else selectMain [] (s0 :: tail) desiredCount duration

/-- intelligentFiltering (lines 508-544): drop scenes before `minDuration`,
compute the ideal count, and run the selector only when more than twice the
ideal count survives. -/
def intelligentFiltering (minDuration : ℚ) (scenes : List Scene) (duration : ℚ) :
    Option (List Scene) :=
  if scenes = [] then some scenes
  else if chapterCountFor duration * 2 <
      ((scenes.filter (fun s => minDuration ≤ s.timestamp)).length : ℤ) then
    selectRepresentativeScenes (scenes.filter (fun s => minDuration ≤ s.timestamp))
      (chapterCountFor duration) duration
  else some (scenes.filter (fun s => minDuration ≤ s.timestamp))

/-- Zero-chapter stage of DetectScenes (lines 149-160): prepend `(0, 1.0)` when
no scene sits below one second and the list is non-empty. -/
def afterZero (scenes : List Scene) : List Scene :=
  if scenes.any (fun s => s.timestamp < 1) = false ∧ scenes ≠ [] then
    Scene.mk 0 0 1 :: scenes
  else scenes

/-- Count-ceiling stage of DetectScenes (lines 162-165). -/
def afterCeiling (sd : SceneDetector) (duration : ℚ) (scenes : List Scene) :
    Option (List Scene) :=
  if 0 < sd.maxScenes ∧ sd.maxScenes < (scenes.length : ℤ) then
    selectRepresentativeScenes scenes sd.maxScenes duration
  else some scenes

/-- Post-detection pipeline of DetectScenes (lines 137-175): combine, filter,
first fallback when empty, zero chapter, ceiling, minimum-count fallback.
`rand1`/`rand2` model the two `createFallbackChapters` call sites' draws from
the process-wide generator. -/
def postPipeline (sd : SceneDetector) (visualScenes audioScenes : List Scene) (duration : ℚ)
    (rand1 rand2 : ℕ → ℚ) : Option (List Scene) :=
  (intelligentFiltering sd.minDuration (combineScenes visualScenes audioScenes sd.minGap)
      duration).bind (fun scenes0 =>
    (afterCeiling sd duration (afterZero
        (if scenes0 = [] then createFallbackChapters duration rand1 else scenes0))).map
      (fun scenes3 =>
        if scenes3.length < 3 ∧ 180 < duration then createFallbackChapters duration rand2
        else scenes3))

/-- Whether a run of the post-detection pipeline invokes `createFallbackChapters`
(line 145 or line 171). -/
def fallbackInvoked (sd : SceneDetector) (visualScenes audioScenes : List Scene) (duration : ℚ)
    (rand1 : ℕ → ℚ) : Bool :=
  match intelligentFiltering sd.minDuration (combineScenes visualScenes audioScenes sd.minGap)
      duration with
  | none => false
  | some scenes0 =>
    decide (scenes0 = []) ||
      match afterCeiling sd duration
          (afterZero (if scenes0 = [] then createFallbackChapters duration rand1 else scenes0)) with
      | none => false
      | some scenes3 => decide (scenes3.length < 3) && decide ((180 : ℚ) < duration)

/-- Segment index as the claim words it (C6): assign each candidate to its
equal-width segment, "overflow clamped to the last segment". -/
def specSegIdx (target : ℤ) (segmentWidth : ℚ) (ts : ℚ) : ℕ :=
  min (goTrunc (ts / segmentWidth)).toNat (target.toNat - 1)

/-- The claim's selection stage after the zero-chapter step: partition the
timeline into `target` equal-width segments, pick one candidate per non-empty
segment with the given rule, and re-sort ascending by timestamp. -/
def selectSpec (pick : ℚ → ℚ → List Scene → Option Scene) (kept rest : List Scene)
    (target : ℤ) (duration : ℚ) : List Scene :=
  sortScenes (kept ++ (List.range target.toNat).filterMap (fun (i : ℕ) =>
    pick ((i : ℚ) * (duration / (target : ℚ)) + (duration / (target : ℚ)) / 2)
      (duration / (target : ℚ))
      (rest.filter (fun s => specSegIdx target (duration / (target : ℚ)) s.timestamp = i))))

/-- The claim's filtering stage, parametrized by the per-segment pick rule so
that the claim's literal reading and the amended reading share everything else:
drop candidates below `minDuration`; compute the ideal count from the duration
buckets; when at most twice the ideal count survives return the filtered list
unchanged; otherwise preserve a first sub-second candidate as the fixed
zero-chapter (target reduced by one) and run the segment selection. -/
def intelligentFilteringSpecWith (pick : ℚ → ℚ → List Scene → Option Scene)
    (minDuration : ℚ) (scenes : List Scene) (duration : ℚ) : List Scene :=
  if ((scenes.filter (fun s => minDuration ≤ s.timestamp)).length : ℤ) ≤
      chapterCountFor duration * 2 then
    scenes.filter (fun s => minDuration ≤ s.timestamp)
  else
    match scenes.filter (fun s => minDuration ≤ s.timestamp) with
    | [] => []
    | s0 :: tail =>
      if s0.timestamp < 1 then
        selectSpec pick [s0] tail (chapterCountFor duration - 1) duration
      else
        selectSpec pick [] (s0 :: tail) (chapterCountFor duration) duration

/-- Modelled from the claim's words (C6): per non-empty segment, "the candidate
maximizing score × (1 − (distanceFromSegmentMidpoint/segmentWidth)/2)" — the
first maximizer of the combined score. -/
def intelligentFilteringSpec (minDuration : ℚ) (scenes : List Scene) (duration : ℚ) :
    List Scene :=
  intelligentFilteringSpecWith (fun mid w seg => seg.argmax (combinedScore mid w))
    minDuration scenes duration

/-- The amended pick rule: the maximizer of the combined score floored at -1
(the selector seeds its best-score tracker at -1, so a segment whose candidates
all score at most -1 contributes its first candidate instead). -/
def intelligentFilteringSpecFloored (minDuration : ℚ) (scenes : List Scene) (duration : ℚ) :
    List Scene :=
  intelligentFilteringSpecWith
    (fun mid w seg => seg.argmax (fun s => max (combinedScore mid w s) (-1)))
    minDuration scenes duration

/-- The run environment: outcomes of the external tool invocations and the
random draws, abstracting everything `DetectScenes` consumes from outside. -/
structure RunEnv where
  ffmpegFound : Bool
  probeOutput : Option (List Char)
  parseFloat : List Char → Option ℚ
  thresholdOutput : Option (List Char)
  intervalOutput : Option (List Char)
  silenceOutput1 : Option (List Char)
  silenceOutput2 : Option (List Char)
  speechCmdOk : Bool
  rand1 : ℕ → ℚ
  rand2 : ℕ → ℚ

/-- getVideoDuration (lines 617-630): run ffprobe, trim, parse. -/
def getVideoDuration (env : RunEnv) : Option ℚ :=
  env.probeOutput.bind (fun out => env.parseFloat (goTrimSpace out))

/-- Error cases of DetectScenes: the two fatal paths. -/
inductive DetectError where
  | ffmpegNotFound : DetectError
  | durationProbe : DetectError
deriving DecidableEq

/-- DetectScenes (lines 108-176).  The outer `Except` carries the two fatal
errors; the inner `Option` is `none` exactly on the selector's panic paths
(the Go process crashes and returns nothing). -/
def DetectScenes (env : RunEnv) (sd : SceneDetector) :
    Except DetectError (Option (List Scene)) :=
  if env.ffmpegFound = false then .error .ffmpegNotFound
  else
    match getVideoDuration env with
    | none => .error .durationProbe
    | some duration =>
      let visualScenes := detectVisualScenes
        (env.thresholdOutput.map (detectScenesByThreshold env.parseFloat duration))
        (env.intervalOutput.map (detectScenesByInterval env.parseFloat duration)) duration
      let audioScenes := (detectAudioScenes
        (env.silenceOutput1.map (detectSilence env.parseFloat (1/2)))
        (env.silenceOutput2.map (detectSilence env.parseFloat (3/4)))
        duration env.speechCmdOk).getD []
      .ok (postPipeline sd visualScenes audioScenes duration env.rand1 env.rand2)

/-! ### Basic facts about the duration buckets and the fallback generator -/

lemma goTrunc_of_nonneg {q : ℚ} (h : 0 ≤ q) : goTrunc q = ⌊q⌋ := by
  unfold goTrunc
  rw [if_neg (not_lt.mpr h)]

lemma goTrunc_nonneg {q : ℚ} (h : 0 ≤ q) : 0 ≤ goTrunc q := by
  rw [goTrunc_of_nonneg h]
  exact Int.floor_nonneg.mpr h

lemma three_le_chapterCountFor (d : ℚ) : 3 ≤ chapterCountFor d := by
  unfold chapterCountFor
  split_ifs with h1 h2 h3
  · norm_num
  · norm_num
  · norm_num
  · push_neg at h1 h2 h3
    have hq : (0:ℚ) ≤ d / 1800 := div_nonneg (by linarith) (by norm_num)
    have hfl : (1:ℤ) ≤ ⌊d / 1800⌋ := by
      rw [Int.le_floor]
      push_cast
      rw [le_div_iff (by norm_num : (0:ℚ) < 1800)]
      linarith
    rw [goTrunc_of_nonneg hq]
    linarith

lemma three_le_toNat_chapterCountFor (d : ℚ) : 3 ≤ (chapterCountFor d).toNat := by
  have := three_le_chapterCountFor d
  omega

lemma createFallbackChapters_length (d : ℚ) (r : ℕ → ℚ) :
    (createFallbackChapters d r).length = (chapterCountFor d).toNat := by
  have h3 := three_le_toNat_chapterCountFor d
  simp only [createFallbackChapters, List.length_cons, List.length_map, List.length_range']
  omega

lemma createFallbackChapters_head (d : ℚ) (r : ℕ → ℚ) :
    (createFallbackChapters d r).head? = some (Scene.mk 0 0 1) := rfl

lemma fallbackChapterAt_eq {d cd : ℚ} {cnt : ℕ} (r : ℕ → ℚ) {i : ℕ}
    (hcd : cd = d / (cnt : ℚ)) (hd : 0 < d) (h1 : 1 ≤ i) (h2 : i < cnt)
    (hr0 : 0 ≤ r i) (hr1 : r i < 1) :
    fallbackChapterAt d cd r i = Scene.mk ((i:ℚ) * cd + cd * (1/10) * (r i - 1/2)) 0 (1/2) ∧
    0 < (i:ℚ) * cd + cd * (1/10) * (r i - 1/2) ∧
    (i:ℚ) * cd + cd * (1/10) * (r i - 1/2) < d - (19/20) * cd := by
  have hcnt0 : (0:ℚ) < (cnt : ℚ) := by
    have h0 : 0 < cnt := lt_of_le_of_lt (Nat.zero_le i) h2
    exact_mod_cast h0
  have hcdpos : 0 < cd := by
    rw [hcd]
    exact div_pos hd hcnt0
  have hi1 : (1:ℚ) ≤ (i:ℚ) := by exact_mod_cast h1
  have hiub : (i:ℚ) + 1 ≤ (cnt:ℚ) := by exact_mod_cast h2
  have hcntcd : (cnt:ℚ) * cd = d := by
    rw [hcd]
    field_simp
  have hjlow : -(cd/20) ≤ cd * (1/10) * (r i - 1/2) := by
    nlinarith [mul_nonneg hcdpos.le hr0]
  have hjup : cd * (1/10) * (r i - 1/2) < cd/20 := by
    nlinarith [mul_lt_mul_of_pos_left hr1 hcdpos]
  have hicd : cd ≤ (i:ℚ) * cd := by
    nlinarith [mul_le_mul_of_nonneg_right hi1 hcdpos.le]
  have hlow : 0 < (i:ℚ) * cd + cd * (1/10) * (r i - 1/2) := by linarith
  have hiupcd : (i:ℚ) * cd ≤ ((cnt:ℚ) - 1) * cd :=
    mul_le_mul_of_nonneg_right (by linarith) hcdpos.le
  have hup : (i:ℚ) * cd + cd * (1/10) * (r i - 1/2) < d - (19/20) * cd := by
    nlinarith [hiupcd, hjup, hcntcd]
  have hltd : (i:ℚ) * cd + cd * (1/10) * (r i - 1/2) < d := by linarith
  refine ⟨?_, hlow, hup⟩
  simp only [fallbackChapterAt]
  rw [if_neg (not_le.mpr hlow), if_neg (not_le.mpr hltd)]

lemma createFallbackChapters_mem {d : ℚ} (r : ℕ → ℚ) (hd : 0 < d)
    (hr : ∀ i, 0 ≤ r i ∧ r i < 1) :
    ∀ s ∈ createFallbackChapters d r,
      (0 ≤ s.timestamp ∧ s.timestamp < d) ∧ (s = Scene.mk 0 0 1 ∨ 0 < s.timestamp) := by
  intro s hs
  simp only [createFallbackChapters, List.mem_cons, List.mem_map, List.mem_range'_1] at hs
  rcases hs with rfl | ⟨i, ⟨hi1, hi2⟩, rfl⟩
  · exact ⟨⟨le_refl 0, hd⟩, Or.inl rfl⟩
  · have h3 := three_le_toNat_chapterCountFor d
    have hi2' : i < (chapterCountFor d).toNat := by omega
    obtain ⟨heq, hpos, hub⟩ := fallbackChapterAt_eq r rfl hd hi1 hi2' (hr i).1 (hr i).2
    rw [heq]
    have hcd : 0 < d / (((chapterCountFor d).toNat : ℕ) : ℚ) := by
      apply div_pos hd
      have h0 : 0 < (chapterCountFor d).toNat := by omega
      exact_mod_cast h0
    exact ⟨⟨hpos.le, by linarith⟩, Or.inr hpos⟩

/-! ### Sorting facts -/

lemma sortScenes_sorted (l : List Scene) : List.Pairwise sceneLE (sortScenes l) :=
  List.sorted_insertionSort sceneLE l

lemma sortScenes_perm (l : List Scene) : (sortScenes l).Perm l :=
  List.perm_insertionSort sceneLE l

lemma sortScenes_length (l : List Scene) : (sortScenes l).length = l.length :=
  (sortScenes_perm l).length_eq

lemma head_sortScenes_cons_of_lt {z : Scene} {l : List Scene}
    (h : ∀ p ∈ l, z.timestamp < p.timestamp) :
    (sortScenes (z :: l)).head? = some z := by
  obtain ⟨h0, t, hct⟩ : ∃ h0 t, sortScenes (z :: l) = h0 :: t := by
    cases hc : sortScenes (z :: l) with
    | nil =>
        have hlen := (sortScenes_perm (z :: l)).length_eq
        rw [hc] at hlen
        simp at hlen
    | cons a b => exact ⟨a, b, rfl⟩
  rw [hct]
  have hperm := sortScenes_perm (z :: l)
  rw [hct] at hperm
  have hsort := sortScenes_sorted (z :: l)
  rw [hct] at hsort
  have hmem0 : h0 ∈ z :: l := hperm.subset (List.mem_cons_self h0 t)
  have hz : z ∈ h0 :: t := hperm.symm.subset (List.mem_cons_self z l)
  rcases List.mem_cons.mp hmem0 with heq | hml
  · rw [heq]
    rfl
  · rcases List.mem_cons.mp hz with heq | hzt
    · rw [heq]
      rfl
    · have hle : sceneLE h0 z := List.rel_of_pairwise_cons hsort hzt
      have hlt : z.timestamp < h0.timestamp := h h0 hml
      exact absurd hle (by simp [sceneLE]; linarith)

/-- C5: `combineScenes` applied with an empty audio list returns the visual list
unchanged — the empty-audio short-circuit at line 473 performs no minGap pruning
and no reordering. -/
theorem c5_combine_empty_audio (visualScenes : List Scene) (minGap : ℚ) :
    combineScenes visualScenes [] minGap = visualScenes := rfl

/-! ### The merge scan of combineScenes -/

/-- The guarantee between two scenes accepted by the merge scan: time order and
the minimum gap. -/
def gapOK (minGap : ℚ) (a b : Scene) : Prop :=
  a.timestamp ≤ b.timestamp ∧ a.timestamp + minGap ≤ b.timestamp

lemma combineFold_inv (g : ℚ) (l : List Scene) :
    ∀ (acc : List Scene × ℚ),
      List.Pairwise (fun b a => gapOK g a b) acc.1 →
      (∀ h t, acc.1 = h :: t → acc.2 = h.timestamp) →
      List.Pairwise sceneLE l →
      (∀ x ∈ l, ∀ y ∈ acc.1, y.timestamp ≤ x.timestamp) →
      List.Pairwise (fun b a => gapOK g a b) (l.foldl (combineStep g) acc).1 ∧
      (∀ h t, (l.foldl (combineStep g) acc).1 = h :: t →
        (l.foldl (combineStep g) acc).2 = h.timestamp) ∧
      (acc.1 ≠ [] → (l.foldl (combineStep g) acc).1 ≠ []) := by
  induction l with
  | nil =>
    intro acc hpw hhead _ _
    exact ⟨hpw, hhead, fun h => h⟩
  | cons s l ih =>
    intro acc hpw hhead hsorted hM
    obtain ⟨accL, accT⟩ := acc
    simp only at hpw hhead hM
    rw [List.foldl_cons]
    have hsorted' : List.Pairwise sceneLE l := hsorted.of_cons
    have hs_le : ∀ x ∈ l, s.timestamp ≤ x.timestamp := fun x hx =>
      List.rel_of_pairwise_cons hsorted hx
    by_cases hacc : g ≤ s.timestamp - accT
    · have hstep : combineStep g (accL, accT) s = (s :: accL, s.timestamp) := by
        unfold combineStep
        rw [if_pos hacc]
      rw [hstep]
      have hpw' : List.Pairwise (fun b a => gapOK g a b) (s :: accL) := by
        refine List.Pairwise.cons ?_ hpw
        intro y hy
        refine ⟨hM s (List.mem_cons_self s l) y hy, ?_⟩
        cases accL with
        | nil => simp at hy
        | cons h t =>
            have hacc2 : accT = h.timestamp := hhead h t rfl
            rcases List.mem_cons.mp hy with rfl | hyt
            · linarith
            · have hgap : gapOK g y h := List.rel_of_pairwise_cons hpw hyt
              have hhs : h.timestamp ≤ s.timestamp :=
                hM s (List.mem_cons_self s l) h (List.mem_cons_self h t)
              exact le_trans hgap.2 hhs
      have IH := ih (s :: accL, s.timestamp) hpw'
        (by
          intro h t ht
          simp only [List.cons.injEq] at ht
          rw [ht.1])
        hsorted'
        (by
          intro x hx y hy
          rcases List.mem_cons.mp hy with rfl | hy'
          · exact hs_le x hx
          · exact hM x (List.mem_cons_of_mem s hx) y hy')
      exact ⟨IH.1, IH.2.1, fun _ => IH.2.2 (List.cons_ne_nil s accL)⟩
    · cases accL with
      | nil =>
        have hstep : combineStep g (([] : List Scene), accT) s = ([], accT) := by
          unfold combineStep
          rw [if_neg hacc]
        rw [hstep]
        have IH := ih ([], accT) hpw hhead hsorted'
          (fun x hx y hy => hM x (List.mem_cons_of_mem s hx) y hy)
        exact IH
      | cons last rest =>
        by_cases hsc : last.score < s.score
        · have hstep : combineStep g (last :: rest, accT) s = (s :: rest, s.timestamp) := by
            unfold combineStep
            rw [if_neg hacc]
            simp only [if_pos hsc]
          rw [hstep]
          have hlast_le : last.timestamp ≤ s.timestamp :=
            hM s (List.mem_cons_self s l) last (List.mem_cons_self last rest)
          have hpw' : List.Pairwise (fun b a => gapOK g a b) (s :: rest) := by
            refine List.Pairwise.cons ?_ hpw.of_cons
            intro y hy
            have hgap : gapOK g y last := List.rel_of_pairwise_cons hpw hy
            exact ⟨le_trans hgap.1 hlast_le, le_trans hgap.2 hlast_le⟩
          have IH := ih (s :: rest, s.timestamp) hpw'
            (by
              intro h t ht
              simp only [List.cons.injEq] at ht
              rw [ht.1])
            hsorted'
            (by
              intro x hx y hy
              rcases List.mem_cons.mp hy with rfl | hy'
              · exact hs_le x hx
              · exact hM x (List.mem_cons_of_mem s hx) y (List.mem_cons_of_mem last hy'))
          exact ⟨IH.1, IH.2.1, fun _ => IH.2.2 (List.cons_ne_nil s rest)⟩
        · have hstep : combineStep g (last :: rest, accT) s = (last :: rest, accT) := by
            unfold combineStep
            rw [if_neg hacc]
            simp only [if_neg hsc]
          rw [hstep]
          exact ih (last :: rest, accT) hpw hhead hsorted'
            (fun x hx y hy => hM x (List.mem_cons_of_mem s hx) y hy)

/-- C4 (amended): for a non-empty audio list the merge scan returns a
time-sorted list whose entries are pairwise at least `minGap` apart; the first
candidate of the sorted concatenation is accepted whenever the `-100` seed
admits it, i.e. when `minGap ≤ timestamp + 100` (so the result is then
non-empty); and on a close pair the later candidate replaces the accepted one
exactly when its score is strictly higher, a tie keeping the accepted one. -/
theorem c4_combine_amended (v a : List Scene) (g : ℚ) (ha : a ≠ []) :
    List.Pairwise (fun x y => x.timestamp ≤ y.timestamp ∧ x.timestamp + g ≤ y.timestamp)
      (combineScenes v a g) ∧
    (∀ s0 rest, sortScenes (v ++ a) = s0 :: rest → g ≤ s0.timestamp + 100 →
      combineScenes v a g ≠ []) ∧
    (∀ x y : Scene, x.timestamp ≤ y.timestamp → y.timestamp - x.timestamp < g →
      g ≤ x.timestamp + 100 →
      combineScenes [x] [y] g = [if x.score < y.score then y else x]) := by
  have hcomb : combineScenes v a g =
      (((sortScenes (v ++ a)).foldl (combineStep g) ([], -100)).1).reverse := by
    unfold combineScenes
    rw [if_neg ha]
  refine ⟨?_, ?_, ?_⟩
  · rw [hcomb, List.pairwise_reverse]
    have H := combineFold_inv g (sortScenes (v ++ a)) ([], -100)
      List.Pairwise.nil (by intro h t ht; simp at ht) (sortScenes_sorted _)
      (by intro x _ y hy; simp at hy)
    exact H.1
  · intro s0 rest hsr hge
    rw [hcomb, hsr, List.foldl_cons]
    have hstep : combineStep g ([], -100) s0 = ([s0], s0.timestamp) := by
      unfold combineStep
      rw [if_pos (by linarith : g ≤ s0.timestamp - (-100 : ℚ))]
    rw [hstep]
    have hsorted0 := sortScenes_sorted (v ++ a)
    rw [hsr] at hsorted0
    have H := combineFold_inv g rest ([s0], s0.timestamp)
      (List.pairwise_singleton _ _)
      (by intro h t ht; simp only [List.cons.injEq] at ht; rw [ht.1])
      hsorted0.of_cons
      (by
        intro x hx y hy
        simp only [List.mem_singleton] at hy
        rw [hy]
        exact List.rel_of_pairwise_cons hsorted0 hx)
    intro hnil
    rw [List.reverse_eq_nil_iff] at hnil
    exact H.2.2 (List.cons_ne_nil s0 []) hnil
  · intro x y hxy hclose hfirst
    have hsort2 : sortScenes ([x] ++ [y]) = [x, y] := by
      have hxy' : sceneLE x y := hxy
      simp only [List.singleton_append, sortScenes, List.insertionSort, List.orderedInsert]
      rw [if_pos hxy']
    unfold combineScenes
    rw [if_neg (List.cons_ne_nil y []), hsort2]
    simp only [List.foldl_cons, List.foldl_nil]
    have hstep1 : combineStep g ([], -100) x = ([x], x.timestamp) := by
      unfold combineStep
      rw [if_pos (by linarith : g ≤ x.timestamp - (-100 : ℚ))]
    rw [hstep1]
    by_cases hs : x.score < y.score
    · have hstep2 : combineStep g ([x], x.timestamp) y = ([y], y.timestamp) := by
        unfold combineStep
        rw [if_neg (not_le.mpr hclose)]
        simp only [if_pos hs]
      rw [hstep2, if_pos hs]
      rfl
    · have hstep2 : combineStep g ([x], x.timestamp) y = ([x], x.timestamp) := by
        unfold combineStep
        rw [if_neg (not_le.mpr hclose)]
        simp only [if_neg hs]
      rw [hstep2, if_neg hs]
      rfl

theorem c4_combine_amended_witness :
    List.Pairwise
      (fun x y => x.timestamp ≤ y.timestamp ∧ x.timestamp + 10 ≤ y.timestamp)
      (combineScenes [Scene.mk 0 0 1] [Scene.mk 20 0 1] 10) :=
  (c4_combine_amended [Scene.mk 0 0 1] [Scene.mk 20 0 1] 10 (List.cons_ne_nil _ _)).1

/-- C4 counterexample: with minGap = 200 the `-100` seed rejects even the first
sorted candidate (gap 150 < 200), so nothing is accepted and `combineScenes`
returns the empty list although the sorted concatenation has a first candidate
— the first candidate is not "always accepted". -/
theorem c4_firstCandidate_counterexample :
    combineScenes [Scene.mk 50 0 1] [Scene.mk 60 0 1] 200 = [] ∧
    sortScenes ([Scene.mk 50 0 1] ++ [Scene.mk 60 0 1]) =
      [Scene.mk 50 0 1, Scene.mk 60 0 1] := by
  have hsort : sortScenes ([Scene.mk 50 0 1] ++ [Scene.mk 60 0 1]) =
      [Scene.mk 50 0 1, Scene.mk 60 0 1] := by
    simp only [List.singleton_append, sortScenes, List.insertionSort, List.orderedInsert]
    rw [if_pos (by norm_num [sceneLE] : sceneLE (Scene.mk 50 0 1) (Scene.mk 60 0 1))]
  refine ⟨?_, hsort⟩
  unfold combineScenes
  rw [if_neg (List.cons_ne_nil _ _), hsort]
  simp only [List.foldl_cons, List.foldl_nil]
  have h1 : combineStep 200 ([], -100) (Scene.mk 50 0 1) = ([], -100) := by
    unfold combineStep
    rw [if_neg (by norm_num)]
  have h2 : combineStep 200 ([], -100) (Scene.mk 60 0 1) = ([], -100) := by
    unfold combineStep
    rw [if_neg (by norm_num)]
  rw [h1, h2]
  rfl

/-! ### The audio detector's ordering -/

lemma detectSpeechPauses_sorted (d : ℚ) :
    List.Pairwise sceneLE (detectSpeechPauses d) := by
  unfold detectSpeechPauses
  rw [List.pairwise_filterMap]
  refine List.Pairwise.imp ?_ (List.pairwise_lt_range' 1 _)
  intro i j hij b hb b' hb'
  by_cases h1 : 30 < (i:ℚ) * 90 ∧ (i:ℚ) * 90 < d - 30
  · rw [if_pos h1] at hb
    by_cases h2 : 30 < (j:ℚ) * 90 ∧ (j:ℚ) * 90 < d - 30
    · rw [if_pos h2] at hb'
      simp only [Option.mem_def, Option.some.injEq] at hb hb'
      rw [← hb, ← hb']
      show (i:ℚ) * 90 ≤ (j:ℚ) * 90
      have hc : (i:ℚ) ≤ (j:ℚ) := by exact_mod_cast hij.le
      linarith
    · rw [if_neg h2] at hb'
      simp at hb'
  · rw [if_neg h1] at hb
    simp at hb

/-- C8 (amended): the audio detector sorts only the concatenation of the two
silence passes; the speech-pause estimator's list (itself ascending) is appended
after that sort without a global re-sort, so each of the two blocks is
time-sorted but the whole returned list need not be. -/
theorem c8_audio_blocks_amended (scenes1 scenes2 : List Scene) (d : ℚ) :
    detectAudioScenes (some scenes1) (some scenes2) d true =
      some (sortScenes (scenes1 ++ scenes2) ++ detectSpeechPauses d) ∧
    List.Pairwise sceneLE (sortScenes (scenes1 ++ scenes2)) ∧
    List.Pairwise sceneLE (detectSpeechPauses d) :=
  ⟨rfl, sortScenes_sorted _, detectSpeechPauses_sorted d⟩

/-- C8 counterexample: a silence candidate at 200s followed by the appended
speech-pause block (which starts at 90s) makes the returned list unsorted. -/
theorem c8_audio_sorted_counterexample :
    ¬ List.Pairwise sceneLE
      ((detectAudioScenes (some [Scene.mk 200 0 1]) (some []) 650 true).getD []) := by
  intro hpw
  have h7 : (goTrunc ((650:ℚ) / 90)).toNat = 7 := by
    unfold goTrunc
    rw [if_neg (by norm_num)]
    have hfl : ⌊(650:ℚ)/90⌋ = 7 := by norm_num
    rw [hfl]
    rfl
  have hr7 : List.range' 1 7 = [1, 2, 3, 4, 5, 6, 7] := rfl
  have hsp : detectSpeechPauses 650 =
      [Scene.mk 90 0 (2/5), Scene.mk 180 0 (2/5), Scene.mk 270 0 (2/5),
        Scene.mk 360 0 (2/5), Scene.mk 450 0 (2/5), Scene.mk 540 0 (2/5)] := by
    unfold detectSpeechPauses
    rw [h7, hr7]
    norm_num [List.filterMap_cons]
  have heval : (detectAudioScenes (some [Scene.mk 200 0 1]) (some []) 650 true).getD []
      = Scene.mk 200 0 1 :: detectSpeechPauses 650 := rfl
  rw [heval, hsp] at hpw
  have h90 := (List.pairwise_cons.mp hpw).1 (Scene.mk 90 0 (2/5)) (by simp)
  simp only [sceneLE] at h90
  norm_num at h90

/-! ### The fallback generator's spacing guarantees -/

/-- The segment width used by `createFallbackChapters` (its `chapterDuration`). -/
def fallbackChapterWidth (duration : ℚ) : ℚ :=
  duration / ((chapterCountFor duration).toNat : ℚ)

lemma fallbackChapterWidth_pos {d : ℚ} (hd : 0 < d) : 0 < fallbackChapterWidth d := by
  unfold fallbackChapterWidth
  apply div_pos hd
  have h3 := three_le_toNat_chapterCountFor d
  have h0 : 0 < (chapterCountFor d).toNat := by omega
  exact_mod_cast h0

lemma fallbackChapterWidth_lb {d : ℚ} (h32 : 32 ≤ d) :
    200/19 ≤ fallbackChapterWidth d := by
  unfold fallbackChapterWidth chapterCountFor
  split_ifs with h1 h2 h3
  · have h3' : (((3:ℤ).toNat : ℕ) : ℚ) = 3 := by simp
    rw [h3', le_div_iff (by norm_num : (0:ℚ) < 3)]
    linarith
  · have h5' : (((5:ℤ).toNat : ℕ) : ℚ) = 5 := by simp
    rw [h5', le_div_iff (by norm_num : (0:ℚ) < 5)]
    push_neg at h1
    linarith
  · have h8' : (((8:ℤ).toNat : ℕ) : ℚ) = 8 := by simp
    rw [h8', le_div_iff (by norm_num : (0:ℚ) < 8)]
    push_neg at h2
    linarith
  · push_neg at h1 h2 h3
    have hq : (0:ℚ) ≤ d / 1800 := div_nonneg (by linarith) (by norm_num)
    rw [goTrunc_of_nonneg hq]
    have hk1 : (1:ℤ) ≤ ⌊d / 1800⌋ := by
      rw [Int.le_floor]
      push_cast
      rw [le_div_iff (by norm_num : (0:ℚ) < 1800)]
      linarith
    have hkd : (⌊d / 1800⌋ : ℚ) ≤ d / 1800 := Int.floor_le _
    have hkd' : (⌊d / 1800⌋ : ℚ) * 1800 ≤ d :=
      (le_div_iff (by norm_num : (0:ℚ) < 1800)).mp hkd
    have hk1' : (1:ℚ) ≤ (⌊d / 1800⌋ : ℚ) := by exact_mod_cast hk1
    have hcast : (((10 + ⌊d / 1800⌋).toNat : ℕ) : ℚ) = 10 + (⌊d / 1800⌋ : ℚ) := by
      have hnn : (0:ℤ) ≤ 10 + ⌊d / 1800⌋ := by linarith
      exact_mod_cast Int.toNat_of_nonneg hnn
    rw [hcast, le_div_iff (by linarith : (0:ℚ) < 10 + (⌊d / 1800⌋ : ℚ))]
    linarith

/-- C7 (amended): for durations of at least 32 seconds and genuine random draws
the fallback list starts with exactly `(0, 1.0)`, its length follows the
duration count buckets, and every non-zero boundary equals
`i × (duration/count)` plus a jitter bounded by ±10% of the segment width, the
resulting timestamp lying strictly inside `(0, duration - 10)`.  (For shorter
durations the segment width drops below `200/19` and boundaries can land at or
beyond `duration - 10`.) -/
theorem c7_fallback_amended (d : ℚ) (randF : ℕ → ℚ) (h32 : 32 ≤ d)
    (hr : ∀ i, 0 ≤ randF i ∧ randF i < 1) :
    (createFallbackChapters d randF).head? = some (Scene.mk 0 0 1) ∧
    (createFallbackChapters d randF).length = (chapterCountFor d).toNat ∧
    ∀ i : ℕ, 1 ≤ i → i < (chapterCountFor d).toNat →
      ∃ jit : ℚ, |jit| ≤ fallbackChapterWidth d / 10 ∧
        (createFallbackChapters d randF)[i]? =
          some (Scene.mk ((i : ℚ) * fallbackChapterWidth d + jit) 0 (1/2)) ∧
        0 < (i : ℚ) * fallbackChapterWidth d + jit ∧
        (i : ℚ) * fallbackChapterWidth d + jit < d - 10 := by
  have hd : (0:ℚ) < d := by linarith
  have hwpos := fallbackChapterWidth_pos hd
  have hwlb := fallbackChapterWidth_lb h32
  refine ⟨createFallbackChapters_head d randF, createFallbackChapters_length d randF, ?_⟩
  intro i hi1 hi2
  obtain ⟨heq, hpos, hub⟩ :=
    fallbackChapterAt_eq randF rfl hd hi1 hi2 (hr i).1 (hr i).2
  refine ⟨fallbackChapterWidth d * (1/10) * (randF i - 1/2), ?_, ?_, ?_, ?_⟩
  · rw [abs_le]
    constructor
    · nlinarith [(hr i).1, hwpos]
    · nlinarith [(hr i).2, hwpos]
  · obtain ⟨i', rfl⟩ : ∃ i', i = i' + 1 := ⟨i - 1, by omega⟩
    show (Scene.mk 0 0 1 ::
      (List.range' 1 ((chapterCountFor d).toNat - 1)).map
        (fallbackChapterAt d (d / (((chapterCountFor d).toNat : ℕ) : ℚ)) randF))[i' + 1]? = _
    rw [List.getElem?_cons_succ, List.getElem?_map, List.getElem?_range' 1 1 (by omega)]
    simp only [Option.map_some']
    rw [show 1 + 1 * i' = i' + 1 by omega]
    rw [heq]
    rfl
  · exact hpos
  · have : (19:ℚ)/20 * fallbackChapterWidth d ≥ 10 := by nlinarith [hwlb]
    calc (↑(i) : ℚ) * fallbackChapterWidth d + fallbackChapterWidth d * (1/10) * (randF i - 1/2)
        < d - 19/20 * fallbackChapterWidth d := hub
      _ ≤ d - 10 := by linarith

theorem c7_fallback_amended_witness :
    (createFallbackChapters 650 (fun _ => 1/2)).head? = some (Scene.mk 0 0 1) ∧
    (createFallbackChapters 650 (fun _ => 1/2)).length = (chapterCountFor 650).toNat :=
  have H := c7_fallback_amended 650 (fun _ => 1/2) (by norm_num)
    (fun _ => ⟨by norm_num, by norm_num⟩)
  ⟨H.1, H.2.1⟩

/-- C7 counterexample: at duration 30 the segment width is 10, and with a draw
of 0.9 the last boundary lands at 20.4, which is not inside
`(0, duration - 10) = (0, 20)` — the claimed containment fails. -/
theorem c7_fallback_counterexample :
    createFallbackChapters 30 (fun _ => 9/10) =
      [Scene.mk 0 0 1, Scene.mk (52/5) 0 (1/2), Scene.mk (102/5) 0 (1/2)] ∧
    (0 ≤ (9/10:ℚ) ∧ (9/10:ℚ) < 1) ∧ ¬ ((102/5 : ℚ) < 30 - 10) := by
  refine ⟨?_, ⟨by norm_num, by norm_num⟩, by norm_num⟩
  have hc : chapterCountFor 30 = 3 := by
    unfold chapterCountFor
    rw [if_pos (by norm_num : (30:ℚ) < 300)]
  unfold createFallbackChapters
  rw [hc]
  show Scene.mk 0 0 1 ::
      (List.range' 1 ((3:ℤ).toNat - 1)).map
        (fallbackChapterAt 30 (30 / (((3:ℤ).toNat : ℕ) : ℚ)) (fun _ => 9/10)) = _
  have hr2 : List.range' 1 ((3:ℤ).toNat - 1) = [1, 2] := rfl
  rw [hr2]
  simp only [List.map_cons, List.map_nil]
  have h1 : fallbackChapterAt 30 (30 / (((3:ℤ).toNat : ℕ) : ℚ)) (fun _ => 9/10) 1 =
      Scene.mk (52/5) 0 (1/2) := by
    have hw : (30 : ℚ) / (((3:ℤ).toNat : ℕ) : ℚ) = 10 := by
      have : (((3:ℤ).toNat : ℕ) : ℚ) = 3 := by simp
      rw [this]
      norm_num
    unfold fallbackChapterAt
    rw [hw]
    norm_num
  have h2 : fallbackChapterAt 30 (30 / (((3:ℤ).toNat : ℕ) : ℚ)) (fun _ => 9/10) 2 =
      Scene.mk (102/5) 0 (1/2) := by
    have hw : (30 : ℚ) / (((3:ℤ).toNat : ℕ) : ℚ) = 10 := by
      have : (((3:ℤ).toNat : ℕ) : ℚ) = 3 := by simp
      rw [this]
      norm_num
    unfold fallbackChapterAt
    rw [hw]
    norm_num
  rw [h1, h2]

/-! ### The per-segment pick as an argmax with a floor -/

lemma bestFold_argAux (c : Scene → ℚ) (l : List Scene) :
    ∀ e : Scene,
      some ((l.foldl (fun (acc : ℚ × Scene) s => if acc.1 < c s then (c s, s) else acc)
        (max (c e) (-1), e)).2)
      = l.foldl (List.argAux fun b a => max (c a) (-1) < max (c b) (-1)) (some e) := by
  induction l with
  | nil => intro e; rfl
  | cons s l ih =>
    intro e
    rw [List.foldl_cons, List.foldl_cons]
    by_cases h : max (c e) (-1) < c s
    · have h1 : (if max (c e) (-1) < c s then (c s, s) else (max (c e) (-1), e)) = (c s, s) :=
        if_pos h
      have hcs : max (c s) (-1) = c s :=
        max_eq_left (le_of_lt (lt_of_le_of_lt (le_max_right _ _) h))
      have h2 : List.argAux (fun b a => max (c a) (-1) < max (c b) (-1)) (some e) s = some s := by
        show (if max (c e) (-1) < max (c s) (-1) then some s else some e) = some s
        rw [if_pos (by rw [hcs]; exact h)]
      rw [h1, h2]
      have hs := ih s
      rw [hcs] at hs
      exact hs
    · have h1 : (if max (c e) (-1) < c s then (c s, s) else (max (c e) (-1), e))
        = (max (c e) (-1), e) := if_neg h
      have h2 : List.argAux (fun b a => max (c a) (-1) < max (c b) (-1)) (some e) s = some e := by
        show (if max (c e) (-1) < max (c s) (-1) then some s else some e) = some e
        rw [if_neg (not_lt.mpr (max_le (not_lt.mp h) (le_max_right _ _)))]
      rw [h1, h2]
      exact ih e

lemma bestInSegment_eq_argmax (mid w : ℚ) (seg : List Scene) :
    bestInSegment mid w seg =
      seg.argmax (fun s => max (combinedScore mid w s) (-1)) := by
  match seg with
  | [] => rfl
  | [s] => rfl
  | s0 :: s1 :: rest =>
    show some (((s0 :: s1 :: rest).foldl (fun (acc : ℚ × Scene) s =>
        if acc.1 < combinedScore mid w s then (combinedScore mid w s, s) else acc)
        (-1, s0)).2) = _
    rw [List.foldl_cons]
    have h0 : (if (-1:ℚ) < combinedScore mid w s0 then (combinedScore mid w s0, s0)
        else ((-1:ℚ), s0)) = (max (combinedScore mid w s0) (-1), s0) := by
      by_cases h : (-1:ℚ) < combinedScore mid w s0
      · rw [if_pos h, max_eq_left h.le]
      · rw [if_neg h, max_eq_right (not_lt.mp h)]
    rw [h0]
    show _ = (s0 :: s1 :: rest).foldl
      (List.argAux fun b a =>
        max (combinedScore mid w a) (-1) < max (combinedScore mid w b) (-1)) none
    rw [List.foldl_cons]
    exact bestFold_argAux (combinedScore mid w) (s1 :: rest) s0

lemma bestInSegment_mem {mid w : ℚ} {seg : List Scene} {s : Scene}
    (h : bestInSegment mid w seg = some s) : s ∈ seg := by
  rw [bestInSegment_eq_argmax] at h
  exact List.argmax_mem h

/-! ### Shape facts about selectRepresentativeScenes -/

lemma selectMain_some_nonneg {kept rest : List Scene} {sc : ℤ} {d : ℚ} {l : List Scene}
    (h : selectMain kept rest sc d = some l) : 0 ≤ sc := by
  by_contra hneg
  unfold selectMain at h
  rw [if_pos (by omega : sc < 0)] at h
  exact Option.noConfusion h

lemma selectMain_length {kept rest : List Scene} {sc : ℤ} {d : ℚ} {l : List Scene}
    (h : selectMain kept rest sc d = some l) :
    l.length ≤ kept.length + sc.toNat := by
  unfold selectMain at h
  split_ifs at h with h1 h2
  · simp only [Option.some.injEq] at h
    rw [← h, sortScenes_length, List.length_append]
    have := List.length_filterMap_le
      (fun (i : ℕ) => bestInSegment ((i : ℚ) * (d / (sc : ℚ)) + (d / (sc : ℚ)) / 2)
        (d / (sc : ℚ))
        (rest.filter (fun s => segIndex sc (d / (sc : ℚ)) s.timestamp = (i : ℤ))))
      (List.range sc.toNat)
    rw [List.length_range] at this
    omega

lemma selectMain_isSome {kept rest : List Scene} {sc : ℤ} {d : ℚ}
    (hsc : 1 ≤ sc) (hd : 0 < d) (hts : ∀ s ∈ rest, 0 ≤ s.timestamp) :
    ∃ l, selectMain kept rest sc d = some l := by
  unfold selectMain
  rw [if_neg (by omega : ¬ sc < 0)]
  have hall : rest.all (fun s => 0 ≤ segIndex sc (d / (sc : ℚ)) s.timestamp) = true := by
    rw [List.all_eq_true]
    intro s hs
    have hsd : 0 < d / (sc : ℚ) := by
      apply div_pos hd
      exact_mod_cast hsc
    have hq : 0 ≤ s.timestamp / (d / (sc : ℚ)) := div_nonneg (hts s hs) hsd.le
    have hraw : 0 ≤ goTrunc (s.timestamp / (d / (sc : ℚ))) := goTrunc_nonneg hq
    simp only [segIndex, decide_eq_true_eq]
    split_ifs with hcl
    · omega
    · exact hraw
  rw [if_pos hall]
  exact ⟨_, rfl⟩

lemma selectMain_struct {kept rest : List Scene} {sc : ℤ} {d : ℚ} {l : List Scene}
    (h : selectMain kept rest sc d = some l) :
    ∃ picks, l = sortScenes (kept ++ picks) ∧ ∀ p ∈ picks, p ∈ rest := by
  unfold selectMain at h
  split_ifs at h with h1 h2
  · simp only [Option.some.injEq] at h
    refine ⟨_, h.symm, ?_⟩
    intro p hp
    rw [List.mem_filterMap] at hp
    obtain ⟨i, _, hbest⟩ := hp
    have := bestInSegment_mem hbest
    rw [List.mem_filter] at this
    exact this.1

lemma select_some_length {scenes : List Scene} {dc : ℤ} {d : ℚ} {l : List Scene}
    (h : selectRepresentativeScenes scenes dc d = some l) : (l.length : ℤ) ≤ dc := by
  unfold selectRepresentativeScenes at h
  split_ifs at h with h1
  · simp only [Option.some.injEq] at h
    rw [← h]
    exact h1
  · match scenes, h with
    | s0 :: tail, h =>
      have h' : (if s0.timestamp < 1 then selectMain [s0] tail (dc - 1) d
          else selectMain [] (s0 :: tail) dc d) = some l := h
      split_ifs at h' with hz
      · have hnn := selectMain_some_nonneg h'
        have hlen := selectMain_length h'
        simp only [List.length_cons, List.length_nil] at hlen
        omega
      · have hnn := selectMain_some_nonneg h'
        have hlen := selectMain_length h'
        simp only [List.length_nil] at hlen
        omega

lemma select_isSome {scenes : List Scene} {dc : ℤ} {d : ℚ}
    (hdc : 2 ≤ dc) (hd : 0 < d) (hts : ∀ s ∈ scenes, 0 ≤ s.timestamp) :
    ∃ l, selectRepresentativeScenes scenes dc d = some l := by
  unfold selectRepresentativeScenes
  split_ifs with h1
  · exact ⟨scenes, rfl⟩
  · match scenes, hts, h1 with
    | [], hts, h1 =>
      exfalso
      apply h1
      simp only [List.length_nil, Nat.cast_zero]
      omega
    | s0 :: tail, hts, h1 =>
      show ∃ l, (if s0.timestamp < 1 then selectMain [s0] tail (dc - 1) d
          else selectMain [] (s0 :: tail) dc d) = some l
      split_ifs with hz
      · exact selectMain_isSome (by omega) hd
          (fun s hs => hts s (List.mem_cons_of_mem s0 hs))
      · exact selectMain_isSome (by omega) hd hts

/-- C2 (amended): with `maxScenes = N > 0`, any chapter list the pipeline
returns has length at most `max N (chapterCountFor duration)`: the ceiling
holds except when the final minimum-count check (lines 170-173) replaces a
short list with `chapterCountFor duration` fallback chapters, which ignores
the ceiling. -/
theorem c2_maxScenes_amended (sd : SceneDetector) (visual audio : List Scene) (d : ℚ)
    (r1 r2 : ℕ → ℚ) (l : List Scene) (hN : 0 < sd.maxScenes)
    (h : postPipeline sd visual audio d r1 r2 = some l) :
    (l.length : ℤ) ≤ max sd.maxScenes (chapterCountFor d) := by
  unfold postPipeline at h
  cases hif : intelligentFiltering sd.minDuration (combineScenes visual audio sd.minGap) d with
  | none =>
    rw [hif] at h
    exact Option.noConfusion h
  | some scenes0 =>
    rw [hif, Option.some_bind] at h
    cases hac : afterCeiling sd d
        (afterZero (if scenes0 = [] then createFallbackChapters d r1 else scenes0)) with
    | none =>
      rw [hac] at h
      exact Option.noConfusion h
    | some scenes3 =>
      rw [hac, Option.map_some'] at h
      simp only [Option.some.injEq] at h
      by_cases hmc : scenes3.length < 3 ∧ 180 < d
      · rw [if_pos hmc] at h
        rw [← h, createFallbackChapters_length]
        have h3 := three_le_chapterCountFor d
        have hcast : ((chapterCountFor d).toNat : ℤ) = chapterCountFor d :=
          Int.toNat_of_nonneg (by omega)
        rw [hcast]
        exact le_max_right _ _
      · rw [if_neg hmc] at h
        rw [← h]
        unfold afterCeiling at hac
        split_ifs at hac with h0 h1 h2
        · exact le_trans (select_some_length hac) (le_max_left _ _)
        · simp only [Option.some.injEq] at hac
          rw [← hac]
          push_neg at h1
          exact le_trans (h1 hN) (le_max_left _ _)
        · exact le_trans (select_some_length hac) (le_max_left _ _)
        · simp only [Option.some.injEq] at hac
          rw [← hac]
          push_neg at h2
          exact le_trans (h2 hN) (le_max_left _ _)

/-! ### A concrete run with maxScenes = 2 and duration 650 -/

lemma chapterCountFor_650 : chapterCountFor 650 = 5 := by
  unfold chapterCountFor
  rw [if_neg (by norm_num : ¬ (650:ℚ) < 300), if_pos (by norm_num : (650:ℚ) < 900)]

lemma createFallbackChapters_650_half :
    createFallbackChapters 650 (fun _ => (1:ℚ)/2) =
      [Scene.mk 0 0 1, Scene.mk 130 0 (1/2), Scene.mk 260 0 (1/2),
        Scene.mk 390 0 (1/2), Scene.mk 520 0 (1/2)] := by
  unfold createFallbackChapters
  rw [chapterCountFor_650]
  show Scene.mk 0 0 1 ::
      (List.range' 1 ((5:ℤ).toNat - 1)).map
        (fallbackChapterAt 650 (650 / (((5:ℤ).toNat : ℕ) : ℚ)) (fun _ => (1:ℚ)/2)) = _
  have hw : (650:ℚ) / (((5:ℤ).toNat : ℕ) : ℚ) = 130 := by
    have h5 : (((5:ℤ).toNat : ℕ) : ℚ) = 5 := by simp
    rw [h5]
    norm_num
  rw [hw]
  have hr4 : List.range' 1 ((5:ℤ).toNat - 1) = [1, 2, 3, 4] := rfl
  rw [hr4]
  simp only [List.map_cons, List.map_nil]
  have h1 : fallbackChapterAt 650 130 (fun _ => (1:ℚ)/2) 1 = Scene.mk 130 0 (1/2) := by
    unfold fallbackChapterAt
    norm_num
  have h2 : fallbackChapterAt 650 130 (fun _ => (1:ℚ)/2) 2 = Scene.mk 260 0 (1/2) := by
    unfold fallbackChapterAt
    norm_num
  have h3 : fallbackChapterAt 650 130 (fun _ => (1:ℚ)/2) 3 = Scene.mk 390 0 (1/2) := by
    unfold fallbackChapterAt
    norm_num
  have h4 : fallbackChapterAt 650 130 (fun _ => (1:ℚ)/2) 4 = Scene.mk 520 0 (1/2) := by
    unfold fallbackChapterAt
    norm_num
  rw [h1, h2, h3, h4]

lemma select_c2run :
    selectRepresentativeScenes
      [Scene.mk 0 0 1, Scene.mk 45 0 (3/5), Scene.mk 310 0 (7/10)] 2 650 =
      some [Scene.mk 0 0 1, Scene.mk 310 0 (7/10)] := by
  unfold selectRepresentativeScenes
  rw [if_neg (by norm_num : ¬ (([Scene.mk 0 0 1, Scene.mk 45 0 (3/5),
    Scene.mk 310 0 (7/10)].length : ℤ) ≤ 2))]
  show (if (Scene.mk 0 0 1).timestamp < 1 then
      selectMain [Scene.mk 0 0 1] [Scene.mk 45 0 (3/5), Scene.mk 310 0 (7/10)] (2 - 1) 650
    else selectMain [] [Scene.mk 0 0 1, Scene.mk 45 0 (3/5), Scene.mk 310 0 (7/10)] 2 650) = _
  rw [if_pos (by norm_num : (Scene.mk 0 0 1).timestamp < (1:ℚ))]
  rw [show (2:ℤ) - 1 = 1 from rfl]
  unfold selectMain
  rw [if_neg (by decide : ¬ (1:ℤ) < 0)]
  have hsd : (650:ℚ) / ((1:ℤ) : ℚ) = 650 := by norm_num
  rw [hsd]
  have hidx45 : segIndex 1 650 (Scene.mk 45 0 (3/5)).timestamp = 0 := by
    unfold segIndex goTrunc
    rw [if_neg (by norm_num : ¬ ((Scene.mk 45 0 (3/5)).timestamp / 650 < 0))]
    have : ⌊(Scene.mk 45 0 (3/5)).timestamp / 650⌋ = 0 := by norm_num
    rw [this]
    norm_num
  have hidx310 : segIndex 1 650 (Scene.mk 310 0 (7/10)).timestamp = 0 := by
    unfold segIndex goTrunc
    rw [if_neg (by norm_num : ¬ ((Scene.mk 310 0 (7/10)).timestamp / 650 < 0))]
    have : ⌊(Scene.mk 310 0 (7/10)).timestamp / 650⌋ = 0 := by norm_num
    rw [this]
    norm_num
  have hall : ([Scene.mk 45 0 (3/5), Scene.mk 310 0 (7/10)].all
      (fun s => 0 ≤ segIndex 1 650 s.timestamp)) = true := by
    simp only [List.all_cons, List.all_nil, hidx45, hidx310]
    norm_num
  rw [if_pos hall]
  have hrange : List.range (1:ℤ).toNat = [0] := rfl
  rw [hrange]
  simp only [List.filterMap_cons, List.filterMap_nil]
  have hfil : ([Scene.mk 45 0 (3/5), Scene.mk 310 0 (7/10)].filter
      (fun s => segIndex 1 650 s.timestamp = ((0:ℕ) : ℤ))) =
      [Scene.mk 45 0 (3/5), Scene.mk 310 0 (7/10)] := by
    simp only [List.filter, hidx45, hidx310]
    norm_num
  have hca : combinedScore (((0:ℕ) : ℚ) * 650 + 650 / 2) 650 (Scene.mk 45 0 (3/5)) =
      153/325 := by
    unfold combinedScore
    norm_num
  have hcb : combinedScore (((0:ℕ) : ℚ) * 650 + 650 / 2) 650 (Scene.mk 310 0 (7/10)) =
      1799/2600 := by
    unfold combinedScore
    norm_num
  have hbest : bestInSegment (((0:ℕ) : ℚ) * 650 + 650 / 2) 650
      [Scene.mk 45 0 (3/5), Scene.mk 310 0 (7/10)] = some (Scene.mk 310 0 (7/10)) := by
    unfold bestInSegment
    simp only [List.foldl_cons, List.foldl_nil, hca, hcb]
    rw [if_pos (by norm_num : (-1:ℚ) < 153/325), if_pos (by norm_num : (153:ℚ)/325 < 1799/2600)]
  rw [hfil, hbest]
  have hsort : sortScenes ([Scene.mk 0 0 1] ++ [Scene.mk 310 0 (7/10)]) =
      [Scene.mk 0 0 1, Scene.mk 310 0 (7/10)] := by
    have hle : sceneLE (Scene.mk 0 0 1) (Scene.mk 310 0 (7/10)) := by
      show (0:ℚ) ≤ 310
      norm_num
    simp only [List.singleton_append, sortScenes, List.insertionSort, List.orderedInsert]
    rw [if_pos hle]
  rw [hsort]

lemma pipeline_c2run :
    postPipeline (SceneDetector.mk (3/10) 10 0 2)
      [Scene.mk 45 0 (3/5), Scene.mk 310 0 (7/10)] [] 650 (fun _ => (1:ℚ)/2)
      (fun _ => (1:ℚ)/2) =
      some [Scene.mk 0 0 1, Scene.mk 130 0 (1/2), Scene.mk 260 0 (1/2),
        Scene.mk 390 0 (1/2), Scene.mk 520 0 (1/2)] := by
  have hcomb : combineScenes [Scene.mk 45 0 (3/5), Scene.mk 310 0 (7/10)] [] 10 =
      [Scene.mk 45 0 (3/5), Scene.mk 310 0 (7/10)] := rfl
  have hfil : [Scene.mk 45 0 (3/5), Scene.mk 310 0 (7/10)].filter
      (fun s => (0:ℚ) ≤ s.timestamp) = [Scene.mk 45 0 (3/5), Scene.mk 310 0 (7/10)] := by
    norm_num [List.filter]
  have hif : intelligentFiltering 0 [Scene.mk 45 0 (3/5), Scene.mk 310 0 (7/10)] 650 =
      some [Scene.mk 45 0 (3/5), Scene.mk 310 0 (7/10)] := by
    unfold intelligentFiltering
    rw [if_neg (by simp : ¬ ([Scene.mk 45 0 (3/5), Scene.mk 310 0 (7/10)] = ([] : List Scene)))]
    rw [hfil, chapterCountFor_650]
    rw [if_neg (by norm_num :
      ¬ (5:ℤ) * 2 < (([Scene.mk 45 0 (3/5), Scene.mk 310 0 (7/10)].length : ℕ) : ℤ))]
  have haz : afterZero [Scene.mk 45 0 (3/5), Scene.mk 310 0 (7/10)] =
      [Scene.mk 0 0 1, Scene.mk 45 0 (3/5), Scene.mk 310 0 (7/10)] := by
    unfold afterZero
    rw [if_pos ⟨by norm_num [List.any], by simp⟩]
  have hceil : afterCeiling (SceneDetector.mk (3/10) 10 0 2) 650
      [Scene.mk 0 0 1, Scene.mk 45 0 (3/5), Scene.mk 310 0 (7/10)] =
      some [Scene.mk 0 0 1, Scene.mk 310 0 (7/10)] := by
    unfold afterCeiling
    rw [if_pos ⟨by decide, by norm_num⟩]
    exact select_c2run
  unfold postPipeline
  rw [show (SceneDetector.mk (3/10) 10 0 2).minDuration = 0 from rfl,
    show (SceneDetector.mk (3/10) 10 0 2).minGap = 10 from rfl]
  rw [hcomb, hif, Option.some_bind]
  rw [if_neg (by simp : ¬ ([Scene.mk 45 0 (3/5), Scene.mk 310 0 (7/10)] = ([] : List Scene)))]
  rw [haz, hceil, Option.map_some']
  rw [if_pos (by norm_num : ([Scene.mk 0 0 1, Scene.mk 310 0 (7/10)].length < 3 ∧
    (180:ℚ) < 650))]
  rw [createFallbackChapters_650_half]

/-- C2 counterexample: a run with maxScenes = 2 whose capped list has only two
chapters; the final minimum-count check then replaces it with five fallback
chapters, so DetectScenes returns a list of length 5 > maxScenes = 2. -/
theorem c2_maxScenes_counterexample :
    postPipeline (SceneDetector.mk (3/10) 10 0 2)
      [Scene.mk 45 0 (3/5), Scene.mk 310 0 (7/10)] [] 650 (fun _ => (1:ℚ)/2)
      (fun _ => (1:ℚ)/2) =
      some [Scene.mk 0 0 1, Scene.mk 130 0 (1/2), Scene.mk 260 0 (1/2),
        Scene.mk 390 0 (1/2), Scene.mk 520 0 (1/2)] ∧
    ¬ (([Scene.mk 0 0 1, Scene.mk 130 0 (1/2), Scene.mk 260 0 (1/2),
        Scene.mk 390 0 (1/2), Scene.mk 520 0 (1/2)].length : ℤ) ≤
      (SceneDetector.mk (3/10) 10 0 2).maxScenes) :=
  ⟨pipeline_c2run, by norm_num⟩

theorem c2_maxScenes_amended_witness :
    (([Scene.mk 0 0 1, Scene.mk 130 0 (1/2), Scene.mk 260 0 (1/2),
      Scene.mk 390 0 (1/2), Scene.mk 520 0 (1/2)].length : ℤ) ≤
      max (SceneDetector.mk (3/10) 10 0 2).maxScenes (chapterCountFor 650)) :=
  c2_maxScenes_amended (SceneDetector.mk (3/10) 10 0 2)
    [Scene.mk 45 0 (3/5), Scene.mk 310 0 (7/10)] [] 650 (fun _ => (1:ℚ)/2)
    (fun _ => (1:ℚ)/2) _ (by decide) pipeline_c2run

/-! ### The empty-detectors run -/

lemma fallbackChapterAt_pos {d cd : ℚ} (r : ℕ → ℚ) {i : ℕ} (hd : 10 < d) (hcd : 0 < cd)
    (hi : 1 ≤ i) : 0 < (fallbackChapterAt d cd r i).timestamp := by
  have hicd : 0 < (i : ℚ) * cd := mul_pos (by exact_mod_cast hi) hcd
  simp only [fallbackChapterAt]
  by_cases hA : (i:ℚ) * cd + cd * (1/10) * (r i - 1/2) ≤ 0
  · rw [if_pos hA]
    by_cases hB : d ≤ (i:ℚ) * cd
    · rw [if_pos hB]
      linarith
    · rw [if_neg hB]
      exact hicd
  · rw [if_neg hA]
    by_cases hB : d ≤ (i:ℚ) * cd + cd * (1/10) * (r i - 1/2)
    · rw [if_pos hB]
      linarith
    · rw [if_neg hB]
      linarith [not_le.mp hA]

lemma fallback_tail_pos {d : ℚ} (r : ℕ → ℚ) (hd : 10 < d) :
    ∀ s ∈ (List.range' 1 ((chapterCountFor d).toNat - 1)).map
      (fallbackChapterAt d (d / (((chapterCountFor d).toNat : ℕ) : ℚ)) r),
      0 < s.timestamp := by
  intro s hs
  simp only [List.mem_map, List.mem_range'_1] at hs
  obtain ⟨i, ⟨hi1, _⟩, rfl⟩ := hs
  have hcnt3 := three_le_toNat_chapterCountFor d
  have hcd : 0 < d / (((chapterCountFor d).toNat : ℕ) : ℚ) := by
    apply div_pos (by linarith)
    exact_mod_cast (by omega : 0 < (chapterCountFor d).toNat)
  exact fallbackChapterAt_pos r hd hcd hi1

lemma fallback_any_sub_second (d : ℚ) (r : ℕ → ℚ) :
    (createFallbackChapters d r).any (fun s => s.timestamp < 1) = true := by
  simp only [createFallbackChapters, List.any_cons]
  have h01 : decide ((Scene.mk 0 0 1).timestamp < 1) = true := by
    rw [decide_eq_true_eq]
    norm_num
  rw [h01, Bool.true_or]

/-- C3 (amended): when duration exceeds 180s, both detectors come back empty
and `maxScenes ≠ 1`, the pipeline returns a list of at least 3 chapters whose
first element is exactly `(0, 1.0)`.  (With `maxScenes = 1` the selector's
desired count drops to zero and the Go slice indexing panics, so no list is
returned at all.) -/
theorem c3_fallback_amended (sd : SceneDetector) (d : ℚ) (r1 r2 : ℕ → ℚ)
    (hd : 180 < d) (hms : sd.maxScenes ≠ 1) :
    ∃ l, postPipeline sd [] [] d r1 r2 = some l ∧ 3 ≤ l.length ∧
      l.head? = some (Scene.mk 0 0 1) := by
  have hd10 : (10:ℚ) < d := by linarith
  have hd0 : (0:ℚ) < d := by linarith
  have hcnt3 := three_le_toNat_chapterCountFor d
  unfold postPipeline
  have hcomb : combineScenes [] [] sd.minGap = [] := rfl
  rw [hcomb]
  have hif : intelligentFiltering sd.minDuration [] d = some [] := by
    unfold intelligentFiltering
    rw [if_pos rfl]
  rw [hif, Option.some_bind, if_pos rfl]
  have hfbcons : createFallbackChapters d r1 = Scene.mk 0 0 1 ::
      (List.range' 1 ((chapterCountFor d).toNat - 1)).map
        (fallbackChapterAt d (d / (((chapterCountFor d).toNat : ℕ) : ℚ)) r1) := rfl
  have haz : afterZero (createFallbackChapters d r1) = createFallbackChapters d r1 := by
    unfold afterZero
    rw [if_neg ?_]
    intro hcondz
    rw [fallback_any_sub_second d r1] at hcondz
    exact Bool.noConfusion hcondz.1
  rw [haz]
  have hfblen : (createFallbackChapters d r1).length = (chapterCountFor d).toNat :=
    createFallbackChapters_length d r1
  have hfb2len : (createFallbackChapters d r2).length = (chapterCountFor d).toNat :=
    createFallbackChapters_length d r2
  unfold afterCeiling
  by_cases hcond : 0 < sd.maxScenes ∧
      sd.maxScenes < ((createFallbackChapters d r1).length : ℤ)
  · rw [if_pos hcond]
    have hdc2 : 2 ≤ sd.maxScenes := by omega
    -- the selector runs: it goes through the zero branch
    obtain ⟨l1, hl1⟩ : ∃ l1, selectRepresentativeScenes (createFallbackChapters d r1)
        sd.maxScenes d = some l1 := by
      apply select_isSome hdc2 hd0
      intro s hs
      rw [hfbcons] at hs
      rcases List.mem_cons.mp hs with rfl | hs'
      · exact le_refl 0
      · exact (fallback_tail_pos r1 hd10 s hs').le
    -- structure of the selected list: the zero chapter stays in front
    have hl1head : l1.head? = some (Scene.mk 0 0 1) ∧ ∀ p ∈ l1,
        p = Scene.mk 0 0 1 ∨ 0 < p.timestamp := by
      have hsel := hl1
      unfold selectRepresentativeScenes at hsel
      rw [if_neg (by omega :
        ¬ (((createFallbackChapters d r1).length : ℤ) ≤ sd.maxScenes)), hfbcons] at hsel
      have hsel' : (if (Scene.mk 0 0 1).timestamp < 1 then
          selectMain [Scene.mk 0 0 1]
            ((List.range' 1 ((chapterCountFor d).toNat - 1)).map
              (fallbackChapterAt d (d / (((chapterCountFor d).toNat : ℕ) : ℚ)) r1))
            (sd.maxScenes - 1) d
        else selectMain []
          (Scene.mk 0 0 1 :: (List.range' 1 ((chapterCountFor d).toNat - 1)).map
              (fallbackChapterAt d (d / (((chapterCountFor d).toNat : ℕ) : ℚ)) r1))
          sd.maxScenes d) = some l1 := hsel
      rw [if_pos (by norm_num : (Scene.mk 0 0 1).timestamp < (1:ℚ))] at hsel'
      obtain ⟨picks, hpe, hpm⟩ := selectMain_struct hsel'
      have hppos : ∀ p ∈ picks, 0 < p.timestamp := fun p hp =>
        fallback_tail_pos r1 hd10 p (hpm p hp)
      constructor
      · rw [hpe]
        show (sortScenes (Scene.mk 0 0 1 :: picks)).head? = some (Scene.mk 0 0 1)
        exact head_sortScenes_cons_of_lt (fun p hp => hppos p hp)
      · intro p hp
        rw [hpe] at hp
        have hp' : p ∈ Scene.mk 0 0 1 :: picks := (sortScenes_perm _).subset hp
        rcases List.mem_cons.mp hp' with rfl | hp''
        · exact Or.inl rfl
        · exact Or.inr (hppos p hp'')
    rw [hl1, Option.map_some']
    by_cases hmc : l1.length < 3 ∧ 180 < d
    · rw [if_pos hmc]
      refine ⟨createFallbackChapters d r2, rfl, ?_, createFallbackChapters_head d r2⟩
      omega
    · rw [if_neg hmc]
      have h3l : 3 ≤ l1.length := by
        rcases not_and_or.mp hmc with h | h
        · omega
        · exact absurd hd h
      exact ⟨l1, rfl, h3l, hl1head.1⟩
  · rw [if_neg hcond]
    simp only [Option.map_some']
    rw [if_neg (by omega : ¬ ((createFallbackChapters d r1).length < 3 ∧ 180 < d))]
    refine ⟨createFallbackChapters d r1, rfl, by omega, createFallbackChapters_head d r1⟩

theorem c3_fallback_amended_witness :
    ∃ l, postPipeline (SceneDetector.mk (3/10) 10 0 0) [] [] 650 (fun _ => (1:ℚ)/2)
      (fun _ => (1:ℚ)/2) = some l ∧ 3 ≤ l.length ∧
      l.head? = some (Scene.mk 0 0 1) :=
  c3_fallback_amended (SceneDetector.mk (3/10) 10 0 0) 650 (fun _ => (1:ℚ)/2)
    (fun _ => (1:ℚ)/2) (by norm_num) (by decide)

lemma pipeline_maxScenesOne_none :
    postPipeline (SceneDetector.mk (3/10) 10 0 1) [] [] 650 (fun _ => (1:ℚ)/2)
      (fun _ => (1:ℚ)/2) = none := by
  unfold postPipeline
  rw [show combineScenes [] [] (SceneDetector.mk (3/10) 10 0 1).minGap = [] from rfl]
  have hif : intelligentFiltering (SceneDetector.mk (3/10) 10 0 1).minDuration [] 650 =
      some [] := by
    unfold intelligentFiltering
    rw [if_pos rfl]
  rw [hif, Option.some_bind, if_pos rfl, createFallbackChapters_650_half]
  have haz : afterZero [Scene.mk 0 0 1, Scene.mk 130 0 (1/2), Scene.mk 260 0 (1/2),
      Scene.mk 390 0 (1/2), Scene.mk 520 0 (1/2)] =
      [Scene.mk 0 0 1, Scene.mk 130 0 (1/2), Scene.mk 260 0 (1/2),
        Scene.mk 390 0 (1/2), Scene.mk 520 0 (1/2)] := by
    unfold afterZero
    rw [if_neg ?_]
    intro hcondz
    have hany : ([Scene.mk 0 0 1, Scene.mk 130 0 (1/2), Scene.mk 260 0 (1/2),
        Scene.mk 390 0 (1/2), Scene.mk 520 0 (1/2)].any (fun s => s.timestamp < 1)) = true := by
      simp only [List.any_cons]
      have h01 : decide ((Scene.mk 0 0 1).timestamp < 1) = true := by
        rw [decide_eq_true_eq]
        norm_num
      rw [h01, Bool.true_or]
    rw [hany] at hcondz
    exact Bool.noConfusion hcondz.1
  rw [haz]
  have hidx130 : segIndex 0 (650 / ((0:ℤ) : ℚ)) (Scene.mk 130 0 (1/2)).timestamp = -1 := by
    unfold segIndex goTrunc
    norm_num
  have hall : ([Scene.mk 130 0 (1/2), Scene.mk 260 0 (1/2), Scene.mk 390 0 (1/2),
      Scene.mk 520 0 (1/2)].all
        (fun s => 0 ≤ segIndex 0 (650 / ((0:ℤ) : ℚ)) s.timestamp)) = false := by
    simp only [List.all_cons, hidx130]
    simp
  have hceil : afterCeiling (SceneDetector.mk (3/10) 10 0 1) 650
      [Scene.mk 0 0 1, Scene.mk 130 0 (1/2), Scene.mk 260 0 (1/2),
        Scene.mk 390 0 (1/2), Scene.mk 520 0 (1/2)] = none := by
    unfold afterCeiling
    rw [if_pos ⟨by decide, by norm_num⟩]
    unfold selectRepresentativeScenes
    rw [if_neg (by norm_num : ¬ (([Scene.mk 0 0 1, Scene.mk 130 0 (1/2), Scene.mk 260 0 (1/2),
      Scene.mk 390 0 (1/2), Scene.mk 520 0 (1/2)].length : ℤ) ≤
        (SceneDetector.mk (3/10) 10 0 1).maxScenes))]
    show (if (Scene.mk 0 0 1).timestamp < 1 then
        selectMain [Scene.mk 0 0 1]
          [Scene.mk 130 0 (1/2), Scene.mk 260 0 (1/2), Scene.mk 390 0 (1/2),
            Scene.mk 520 0 (1/2)] ((SceneDetector.mk (3/10) 10 0 1).maxScenes - 1) 650
      else selectMain []
        [Scene.mk 0 0 1, Scene.mk 130 0 (1/2), Scene.mk 260 0 (1/2), Scene.mk 390 0 (1/2),
          Scene.mk 520 0 (1/2)] (SceneDetector.mk (3/10) 10 0 1).maxScenes 650) = none
    rw [if_pos (by norm_num : (Scene.mk 0 0 1).timestamp < (1:ℚ))]
    rw [show (SceneDetector.mk (3/10) 10 0 1).maxScenes - 1 = 0 from rfl]
    unfold selectMain
    rw [if_neg (by decide : ¬ (0:ℤ) < 0)]
    rw [if_neg (by rw [hall]; exact Bool.noConfusion)]
  rw [hceil]
  rfl

/-- C3 counterexample: with maxScenes = 1 the empty-detectors run reaches the
selector with the zero chapter in front, the desired count drops to 0, the
segment index comes out -1 and the Go slice write panics — modelled as `none`:
no list (of length at least 3 or otherwise) is returned. -/
theorem c3_maxScenesOne_counterexample :
    postPipeline (SceneDetector.mk (3/10) 10 0 1) [] [] 650 (fun _ => (1:ℚ)/2)
      (fun _ => (1:ℚ)/2) = none :=
  pipeline_maxScenesOne_none

/-! ### The spec's walkthrough scenario (duration 650, empty audio) -/

lemma filtering_c1run :
    intelligentFiltering 0 [Scene.mk 45.2 0 0.6, Scene.mk 130 0 0.5,
      Scene.mk 131 0 0.9, Scene.mk 310.5 0 0.7, Scene.mk 602 0 0.4] 650 =
      some [Scene.mk 45.2 0 0.6, Scene.mk 130 0 0.5, Scene.mk 131 0 0.9,
        Scene.mk 310.5 0 0.7, Scene.mk 602 0 0.4] := by
  have hfil : [Scene.mk 45.2 0 0.6, Scene.mk 130 0 0.5, Scene.mk 131 0 0.9,
      Scene.mk 310.5 0 0.7, Scene.mk 602 0 0.4].filter (fun s => (0:ℚ) ≤ s.timestamp) =
      [Scene.mk 45.2 0 0.6, Scene.mk 130 0 0.5, Scene.mk 131 0 0.9,
        Scene.mk 310.5 0 0.7, Scene.mk 602 0 0.4] := by
    norm_num [List.filter]
  unfold intelligentFiltering
  rw [if_neg (by simp : ¬ ([Scene.mk 45.2 0 0.6, Scene.mk 130 0 0.5, Scene.mk 131 0 0.9,
    Scene.mk 310.5 0 0.7, Scene.mk 602 0 0.4] = ([] : List Scene)))]
  rw [hfil, chapterCountFor_650]
  rw [if_neg (by norm_num : ¬ (5:ℤ) * 2 < (([Scene.mk 45.2 0 0.6, Scene.mk 130 0 0.5,
    Scene.mk 131 0 0.9, Scene.mk 310.5 0 0.7, Scene.mk 602 0 0.4].length : ℕ) : ℤ))]

lemma afterZero_c1run :
    afterZero [Scene.mk 45.2 0 0.6, Scene.mk 130 0 0.5, Scene.mk 131 0 0.9,
      Scene.mk 310.5 0 0.7, Scene.mk 602 0 0.4] =
      [Scene.mk 0 0 1, Scene.mk 45.2 0 0.6, Scene.mk 130 0 0.5, Scene.mk 131 0 0.9,
        Scene.mk 310.5 0 0.7, Scene.mk 602 0 0.4] := by
  unfold afterZero
  rw [if_pos ⟨by norm_num [List.any], by simp⟩]

lemma ceiling_c1run :
    afterCeiling (SceneDetector.mk (3/10) 10 0 0) 650
      [Scene.mk 0 0 1, Scene.mk 45.2 0 0.6, Scene.mk 130 0 0.5, Scene.mk 131 0 0.9,
        Scene.mk 310.5 0 0.7, Scene.mk 602 0 0.4] =
      some [Scene.mk 0 0 1, Scene.mk 45.2 0 0.6, Scene.mk 130 0 0.5, Scene.mk 131 0 0.9,
        Scene.mk 310.5 0 0.7, Scene.mk 602 0 0.4] := by
  unfold afterCeiling
  rw [if_neg (by intro hx; exact absurd hx.1 (by decide))]

lemma pipeline_c1run :
    postPipeline (SceneDetector.mk (3/10) 10 0 0)
      [Scene.mk 45.2 0 0.6, Scene.mk 130 0 0.5, Scene.mk 131 0 0.9,
        Scene.mk 310.5 0 0.7, Scene.mk 602 0 0.4] [] 650
      (fun _ => (1:ℚ)/2) (fun _ => (1:ℚ)/2) =
      some [Scene.mk 0 0 1, Scene.mk 45.2 0 0.6, Scene.mk 130 0 0.5, Scene.mk 131 0 0.9,
        Scene.mk 310.5 0 0.7, Scene.mk 602 0 0.4] := by
  have hcomb : combineScenes [Scene.mk 45.2 0 0.6, Scene.mk 130 0 0.5, Scene.mk 131 0 0.9,
      Scene.mk 310.5 0 0.7, Scene.mk 602 0 0.4] [] 10 =
      [Scene.mk 45.2 0 0.6, Scene.mk 130 0 0.5, Scene.mk 131 0 0.9,
        Scene.mk 310.5 0 0.7, Scene.mk 602 0 0.4] := rfl
  have hif := filtering_c1run
  have haz := afterZero_c1run
  have hceil := ceiling_c1run
  unfold postPipeline
  rw [show (SceneDetector.mk (3/10) 10 0 0).minDuration = 0 from rfl,
    show (SceneDetector.mk (3/10) 10 0 0).minGap = 10 from rfl]
  rw [hcomb, hif, Option.some_bind]
  rw [if_neg (by simp : ¬ ([Scene.mk 45.2 0 0.6, Scene.mk 130 0 0.5, Scene.mk 131 0 0.9,
    Scene.mk 310.5 0 0.7, Scene.mk 602 0 0.4] = ([] : List Scene)))]
  rw [haz, hceil, Option.map_some']
  rw [if_neg (by norm_num : ¬ ([Scene.mk 0 0 1, Scene.mk 45.2 0 0.6, Scene.mk 130 0 0.5,
    Scene.mk 131 0 0.9, Scene.mk 310.5 0 0.7, Scene.mk 602 0 0.4].length < 3 ∧
      (180:ℚ) < 650))]

/-- C1 counterexample: on the spec's scenario the empty audio list short-circuits
`combineScenes`, so 130.0 is never merged away: the pipeline returns the
six timestamps `[0, 45.2, 130, 131, 310.5, 602]`, not the claimed five. -/
theorem c1_scenario_counterexample :
    (postPipeline (SceneDetector.mk (3/10) 10 0 0)
        [Scene.mk 45.2 0 0.6, Scene.mk 130 0 0.5, Scene.mk 131 0 0.9,
          Scene.mk 310.5 0 0.7, Scene.mk 602 0 0.4] [] 650
        (fun _ => (1:ℚ)/2) (fun _ => (1:ℚ)/2)).map (List.map Scene.timestamp) =
      some [0, 45.2, 130, 131, 310.5, 602] ∧
    ¬ ((postPipeline (SceneDetector.mk (3/10) 10 0 0)
        [Scene.mk 45.2 0 0.6, Scene.mk 130 0 0.5, Scene.mk 131 0 0.9,
          Scene.mk 310.5 0 0.7, Scene.mk 602 0 0.4] [] 650
        (fun _ => (1:ℚ)/2) (fun _ => (1:ℚ)/2)).map (List.map Scene.timestamp) =
      some [0, 45.2, 131, 310.5, 602]) := by
  rw [pipeline_c1run]
  constructor
  · rfl
  · intro hx
    simp only [Option.map_some', Option.some.injEq, List.map_cons] at hx
    have := congrArg List.length hx
    simp at this

/-- C1 (amended): on the scenario run the pipeline returns exactly the six
timestamps `[0, 45.2, 130, 131, 310.5, 602]` (length 6) and the fallback
generator is never invoked: because the audio list is empty, `combineScenes`
short-circuits and the 130.0 candidate survives next to 131.0. -/
theorem c1_scenario_amended :
    postPipeline (SceneDetector.mk (3/10) 10 0 0)
      [Scene.mk 45.2 0 0.6, Scene.mk 130 0 0.5, Scene.mk 131 0 0.9,
        Scene.mk 310.5 0 0.7, Scene.mk 602 0 0.4] [] 650
      (fun _ => (1:ℚ)/2) (fun _ => (1:ℚ)/2) =
      some [Scene.mk 0 0 1, Scene.mk 45.2 0 0.6, Scene.mk 130 0 0.5, Scene.mk 131 0 0.9,
        Scene.mk 310.5 0 0.7, Scene.mk 602 0 0.4] ∧
    fallbackInvoked (SceneDetector.mk (3/10) 10 0 0)
      [Scene.mk 45.2 0 0.6, Scene.mk 130 0 0.5, Scene.mk 131 0 0.9,
        Scene.mk 310.5 0 0.7, Scene.mk 602 0 0.4] [] 650 (fun _ => (1:ℚ)/2) = false := by
  refine ⟨pipeline_c1run, ?_⟩
  unfold fallbackInvoked
  rw [show combineScenes [Scene.mk 45.2 0 0.6, Scene.mk 130 0 0.5, Scene.mk 131 0 0.9,
    Scene.mk 310.5 0 0.7, Scene.mk 602 0 0.4] [] (SceneDetector.mk (3/10) 10 0 0).minGap =
    [Scene.mk 45.2 0 0.6, Scene.mk 130 0 0.5, Scene.mk 131 0 0.9,
      Scene.mk 310.5 0 0.7, Scene.mk 602 0 0.4] from rfl]
  rw [show (SceneDetector.mk (3/10) 10 0 0).minDuration = 0 from rfl]
  rw [filtering_c1run]
  show (decide ([Scene.mk 45.2 0 0.6, Scene.mk 130 0 0.5, Scene.mk 131 0 0.9,
      Scene.mk 310.5 0 0.7, Scene.mk 602 0 0.4] = []) ||
    (match afterCeiling (SceneDetector.mk (3/10) 10 0 0) 650
        (afterZero (if [Scene.mk 45.2 0 0.6, Scene.mk 130 0 0.5, Scene.mk 131 0 0.9,
          Scene.mk 310.5 0 0.7, Scene.mk 602 0 0.4] = ([] : List Scene) then
            createFallbackChapters 650 (fun _ => (1:ℚ)/2)
          else [Scene.mk 45.2 0 0.6, Scene.mk 130 0 0.5, Scene.mk 131 0 0.9,
            Scene.mk 310.5 0 0.7, Scene.mk 602 0 0.4])) with
      | none => false
      | some scenes3 => decide (scenes3.length < 3) && decide ((180 : ℚ) < 650))) = false
  rw [if_neg (by simp : ¬ ([Scene.mk 45.2 0 0.6, Scene.mk 130 0 0.5, Scene.mk 131 0 0.9,
    Scene.mk 310.5 0 0.7, Scene.mk 602 0 0.4] = ([] : List Scene)))]
  rw [afterZero_c1run, ceiling_c1run]
  show (decide ([Scene.mk 45.2 0 0.6, Scene.mk 130 0 0.5, Scene.mk 131 0 0.9,
      Scene.mk 310.5 0 0.7, Scene.mk 602 0 0.4] = []) ||
    (decide ([Scene.mk 0 0 1, Scene.mk 45.2 0 0.6, Scene.mk 130 0 0.5, Scene.mk 131 0 0.9,
      Scene.mk 310.5 0 0.7, Scene.mk 602 0 0.4].length < 3) && decide ((180 : ℚ) < 650))) =
    false
  rw [decide_eq_false (by simp : ¬ ([Scene.mk 45.2 0 0.6, Scene.mk 130 0 0.5,
    Scene.mk 131 0 0.9, Scene.mk 310.5 0 0.7, Scene.mk 602 0 0.4] = ([] : List Scene)))]
  rw [decide_eq_false (by norm_num : ¬ ([Scene.mk 0 0 1, Scene.mk 45.2 0 0.6,
    Scene.mk 130 0 0.5, Scene.mk 131 0 0.9, Scene.mk 310.5 0 0.7,
    Scene.mk 602 0 0.4].length < 3))]
  rfl

/-! ### Totality of the pipeline away from the maxScenes = 1 crash -/

lemma select_subset {scenes : List Scene} {dc : ℤ} {d : ℚ} {l : List Scene}
    (h : selectRepresentativeScenes scenes dc d = some l) : ∀ s ∈ l, s ∈ scenes := by
  unfold selectRepresentativeScenes at h
  split_ifs at h with h1
  · simp only [Option.some.injEq] at h
    rw [← h]
    exact fun s hs => hs
  · match scenes, h with
    | s0 :: tail, h =>
      have h' : (if s0.timestamp < 1 then selectMain [s0] tail (dc - 1) d
          else selectMain [] (s0 :: tail) dc d) = some l := h
      split_ifs at h' with hz
      · obtain ⟨picks, hpe, hpm⟩ := selectMain_struct h'
        intro s hs
        rw [hpe] at hs
        have hs' : s ∈ s0 :: picks := (sortScenes_perm _).subset hs
        rcases List.mem_cons.mp hs' with rfl | hs''
        · exact List.mem_cons_self s tail
        · exact List.mem_cons_of_mem s0 (hpm s hs'')
      · obtain ⟨picks, hpe, hpm⟩ := selectMain_struct h'
        intro s hs
        rw [hpe] at hs
        have hs' : s ∈ ([] : List Scene) ++ picks := (sortScenes_perm _).subset hs
        exact hpm s (by simpa using hs')

lemma afterZero_mem {L : List Scene} : ∀ s ∈ afterZero L, s = Scene.mk 0 0 1 ∨ s ∈ L := by
  intro s hs
  unfold afterZero at hs
  split_ifs at hs with h
  · rcases List.mem_cons.mp hs with rfl | hs'
    · exact Or.inl rfl
    · exact Or.inr hs'
  · exact Or.inr hs

lemma pipeline_isSome (sd : SceneDetector) (v a : List Scene) (d : ℚ) (r1 r2 : ℕ → ℚ)
    (hd : 0 < d) (hmin : 0 ≤ sd.minDuration) (hms : sd.maxScenes ≠ 1)
    (hr1 : ∀ i, 0 ≤ r1 i ∧ r1 i < 1) :
    ∃ l, postPipeline sd v a d r1 r2 = some l := by
  unfold postPipeline
  obtain ⟨s0, hs0, hs0pos⟩ : ∃ s0,
      intelligentFiltering sd.minDuration (combineScenes v a sd.minGap) d = some s0 ∧
      ∀ s ∈ s0, 0 ≤ s.timestamp := by
    unfold intelligentFiltering
    by_cases hemp : combineScenes v a sd.minGap = []
    · rw [if_pos hemp]
      refine ⟨_, rfl, ?_⟩
      rw [hemp]
      intro s hs
      simp at hs
    · rw [if_neg hemp]
      have hfil_pos : ∀ s ∈ (combineScenes v a sd.minGap).filter
          (fun s => sd.minDuration ≤ s.timestamp), 0 ≤ s.timestamp := by
        intro s hs
        have := (List.mem_filter.mp hs).2
        rw [decide_eq_true_eq] at this
        linarith
      by_cases hsel : chapterCountFor d * 2 <
          (((combineScenes v a sd.minGap).filter
            (fun s => sd.minDuration ≤ s.timestamp)).length : ℤ)
      · rw [if_pos hsel]
        have h3 := three_le_chapterCountFor d
        have hdc : (2:ℤ) ≤ chapterCountFor d := by omega
        obtain ⟨l, hl⟩ := select_isSome hdc hd hfil_pos
        exact ⟨l, hl, fun s hs => hfil_pos s (select_subset hl s hs)⟩
      · rw [if_neg hsel]
        exact ⟨_, rfl, hfil_pos⟩
  rw [hs0, Option.some_bind]
  set L := if s0 = [] then createFallbackChapters d r1 else s0 with hL
  have hs1pos : ∀ s ∈ L, 0 ≤ s.timestamp := by
    rw [hL]
    split_ifs with h
    · intro s hs
      exact ((createFallbackChapters_mem r1 hd hr1 s hs).1).1
    · exact hs0pos
  have hazpos : ∀ s ∈ afterZero L, 0 ≤ s.timestamp := by
    intro s hs
    rcases afterZero_mem s hs with he | hm
    · rw [he]
    · exact hs1pos s hm
  obtain ⟨l3, hl3⟩ : ∃ l3, afterCeiling sd d (afterZero L) = some l3 := by
    unfold afterCeiling
    split_ifs with hcond
    · have hdc2 : (2:ℤ) ≤ sd.maxScenes := by
        have := hcond.1
        omega
      exact select_isSome hdc2 hd hazpos
    · exact ⟨_, rfl⟩
  rw [hl3, Option.map_some']
  exact ⟨_, rfl⟩

/-- C9 (amended): DetectScenes returns an error exactly when ffmpeg is missing
or the duration probe fails (command error or unparsable output); detector
invocation failures are never fatal — the failing detector contributes an
empty list — and, provided the probed duration is positive, minDuration is
non-negative and maxScenes ≠ 1, the run returns a chapter list.  (At
maxScenes = 1 the selector crash path can prevent any list from being
returned, although no error is reported.) -/
theorem c9_error_amended :
    (∀ (env : RunEnv) (sd : SceneDetector),
      (∃ e, DetectScenes env sd = .error e) ↔
        (env.ffmpegFound = false ∨ getVideoDuration env = none)) ∧
    (∀ (env : RunEnv) (sd : SceneDetector) (dur : ℚ),
      env.ffmpegFound = true → getVideoDuration env = some dur → 0 < dur →
      0 ≤ sd.minDuration → sd.maxScenes ≠ 1 →
      (∀ i, 0 ≤ env.rand1 i ∧ env.rand1 i < 1) →
      ∃ l, DetectScenes env sd = .ok (some l)) := by
  constructor
  · intro env sd
    unfold DetectScenes
    by_cases hff : env.ffmpegFound = false
    · rw [if_pos hff]
      exact ⟨fun _ => Or.inl hff, fun _ => ⟨.ffmpegNotFound, rfl⟩⟩
    · rw [if_neg hff]
      cases hgd : getVideoDuration env with
      | none => exact ⟨fun _ => Or.inr rfl, fun _ => ⟨.durationProbe, rfl⟩⟩
      | some dur =>
        constructor
        · intro ⟨e, he⟩
          exact Except.noConfusion he
        · intro hor
          rcases hor with h | h
          · exact absurd h hff
          · exact Option.noConfusion h
  · intro env sd dur hff hgd hdur hmin hms hr1
    obtain ⟨l, hl⟩ := pipeline_isSome sd
      (detectVisualScenes
        (env.thresholdOutput.map (detectScenesByThreshold env.parseFloat dur))
        (env.intervalOutput.map (detectScenesByInterval env.parseFloat dur)) dur)
      ((detectAudioScenes
        (env.silenceOutput1.map (detectSilence env.parseFloat (1/2)))
        (env.silenceOutput2.map (detectSilence env.parseFloat (3/4)))
        dur env.speechCmdOk).getD [])
      dur env.rand1 env.rand2 hdur hmin hms hr1
    refine ⟨l, ?_⟩
    unfold DetectScenes
    rw [if_neg (by rw [hff]; exact Bool.noConfusion), hgd]
    show Except.ok (postPipeline sd
      (detectVisualScenes
        (env.thresholdOutput.map (detectScenesByThreshold env.parseFloat dur))
        (env.intervalOutput.map (detectScenesByInterval env.parseFloat dur)) dur)
      ((detectAudioScenes
        (env.silenceOutput1.map (detectSilence env.parseFloat (1/2)))
        (env.silenceOutput2.map (detectSilence env.parseFloat (3/4)))
        dur env.speechCmdOk).getD [])
      dur env.rand1 env.rand2) = Except.ok (some l)
    rw [hl]

theorem c9_error_amended_witness :
    ∃ l, DetectScenes
      (RunEnv.mk true (some "650".data)
        (fun s => if s = "650".data then some 650 else none)
        none none none none false (fun _ => (1:ℚ)/2) (fun _ => (1:ℚ)/2))
      (SceneDetector.mk (3/10) 10 0 0) = .ok (some l) :=
  c9_error_amended.2
    (RunEnv.mk true (some "650".data)
      (fun s => if s = "650".data then some 650 else none)
      none none none none false (fun _ => (1:ℚ)/2) (fun _ => (1:ℚ)/2))
    (SceneDetector.mk (3/10) 10 0 0) 650 rfl rfl (by norm_num) (by norm_num) (by decide)
    (fun _ => ⟨by norm_num, by norm_num⟩)

/-- C9 counterexample: detector failures alone never make the run fatal, yet
with maxScenes = 1 the run terminates without returning any chapter list (the
Go selector panics), so "the run still returns a chapter list" fails. -/
theorem c9_error_counterexample :
    DetectScenes
      (RunEnv.mk true (some "650".data)
        (fun s => if s = "650".data then some 650 else none)
        none none none none false (fun _ => (1:ℚ)/2) (fun _ => (1:ℚ)/2))
      (SceneDetector.mk (3/10) 10 0 1) = .ok none := by
  unfold DetectScenes
  rw [if_neg (by intro hx; exact Bool.noConfusion hx)]
  have hgd : getVideoDuration
      (RunEnv.mk true (some "650".data)
        (fun s => if s = "650".data then some 650 else none)
        none none none none false (fun _ => (1:ℚ)/2) (fun _ => (1:ℚ)/2)) = some 650 := rfl
  rw [hgd]
  show Except.ok (postPipeline (SceneDetector.mk (3/10) 10 0 1)
    (detectVisualScenes none none 650) [] 650 (fun _ => (1:ℚ)/2) (fun _ => (1:ℚ)/2)) = _
  have hvis : detectVisualScenes none none 650 = [] := by
    simp only [detectVisualScenes]
    split_ifs <;> rfl
  rw [hvis, pipeline_maxScenesOne_none]

/-! ### Malformed tool-output lines -/

lemma parse_fold_zero (pf : List Char → Option ℚ) (pre : List Char) (n : ℕ) :
    ∀ fields : List (List Char),
      (∀ f ∈ fields, List.isPrefixOf pre f = true → pf (f.drop n) = none) →
      fields.foldl
        (fun t f => if List.isPrefixOf pre f then (pf (f.drop n)).getD 0 else t) (0:ℚ)
        = 0 := by
  intro fields
  induction fields with
  | nil => intro _; rfl
  | cons f rest ih =>
    intro h
    rw [List.foldl_cons]
    by_cases hp : List.isPrefixOf pre f = true
    · rw [if_pos hp, h f (List.mem_cons_self f rest) hp, Option.getD_none]
      exact ih (fun g hg hpg => h g (List.mem_cons_of_mem f hg) hpg)
    · rw [if_neg hp]
      exact ih (fun g hg hpg => h g (List.mem_cons_of_mem f hg) hpg)

/-- C10 (amended): a `pts_time:` field whose value fails to parse leaves the
line's timestamp at 0, and the threshold detector's `timestamp > 0` filter then
silently drops the candidate; an unparsable `score:` field yields score 0; but
the silence detector has no such filter: a malformed `silence_end:` field
produces a candidate kept at timestamp exactly 0.  Either way malformed lines
never make DetectScenes return an error and never produce a candidate at a
nonzero position. -/
theorem c10_parse_amended :
    (∀ (pf : List Char → Option ℚ) (d : ℚ) (line : List Char),
      (∀ f ∈ goFields line, List.isPrefixOf "pts_time:".data f = true →
        pf (f.drop 9) = none) →
      thresholdLineScenes pf d line = []) ∧
    (∀ (pf : List Char → Option ℚ) (base : ℚ) (line : List Char),
      (∀ f ∈ goFields line, List.isPrefixOf "silence_end:".data f = true →
        pf (f.drop 12) = none) →
      ∀ s ∈ silenceLineScenes pf base line, s.timestamp = 0) ∧
    (∀ (pf : List Char → Option ℚ) (d : ℚ) (line : List Char),
      (∀ f ∈ goFields line, List.isPrefixOf "score:".data f = true →
        pf (f.drop 6) = none) →
      ∀ s ∈ thresholdLineScenes pf d line, s.score = 0) ∧
    (∀ (env : RunEnv) (sd : SceneDetector) (dur : ℚ),
      env.ffmpegFound = true → getVideoDuration env = some dur →
      ∀ e, DetectScenes env sd ≠ .error e) := by
  refine ⟨?_, ?_, ?_, ?_⟩
  · intro pf d line h
    simp only [thresholdLineScenes]
    split_ifs with h1 h2
    · exfalso
      rw [parse_fold_zero pf "pts_time:".data 9 (goFields line) h] at h2
      exact absurd h2.1 (by norm_num)
    · rfl
    · rfl
  · intro pf base line h s hs
    simp only [silenceLineScenes] at hs
    split_ifs at hs with h1
    · rw [List.mem_filterMap] at hs
      obtain ⟨i, hi, hsome⟩ := hs
      rw [List.mem_range] at hi
      by_cases hp : List.isPrefixOf "silence_end:".data ((goFields line).getD i []) = true
      · rw [if_pos hp] at hsome
        simp only [Option.some.injEq] at hsome
        have hmem : (goFields line).getD i [] ∈ goFields line := by
          rw [List.getD_eq_getElem (goFields line) [] hi]
          exact List.getElem_mem hi
        rw [h ((goFields line).getD i []) hmem hp, Option.getD_none] at hsome
        rw [← hsome]
      · rw [if_neg hp] at hsome
        exact Option.noConfusion hsome
    · simp at hs
  · intro pf d line h s hs
    simp only [thresholdLineScenes] at hs
    split_ifs at hs with h1 h2
    · rw [List.mem_singleton] at hs
      rw [hs]
      exact parse_fold_zero pf "score:".data 6 (goFields line) h
    · simp at hs
    · simp at hs
  · intro env sd dur hff hgd e
    unfold DetectScenes
    rw [if_neg (by rw [hff]; exact Bool.noConfusion), hgd]
    exact Except.noConfusion

theorem c10_parse_amended_witness :
    thresholdLineScenes (fun _ => none) 100 "pts_time:xyz score:2".data = [] :=
  c10_parse_amended.1 (fun _ => none) 100 "pts_time:xyz score:2".data
    (fun _ _ _ => rfl)

/-- C10 counterexample: a malformed `silence_end:` value yields a candidate at
timestamp 0 that the silence detector keeps — there is no `timestamp > 0`
filter in `detectSilence`, so the candidate is not silently excluded. -/
theorem c10_silence_counterexample :
    detectSilence (fun _ => none) (1/2) "silence_end:abc".data = [Scene.mk 0 0 (1/2)] ∧
    detectSilence (fun _ => none) (1/2) "silence_end:abc".data ≠ [] := by
  constructor
  · rfl
  · intro hx
    rw [show detectSilence (fun _ => none) (1/2) "silence_end:abc".data =
      [Scene.mk 0 0 (1/2)] from rfl] at hx
    exact List.noConfusion hx

/-! ### C6: the filtering stage against the claim's reading -/

lemma segIndex_eq_spec_iff {sc : ℤ} {w ts : ℚ} (i : ℕ)
    (hsc : 1 ≤ sc) (hw : 0 < w) (hts : 0 ≤ ts) :
    segIndex sc w ts = (i : ℤ) ↔ specSegIdx sc w ts = i := by
  have hraw : 0 ≤ goTrunc (ts / w) := goTrunc_nonneg (div_nonneg hts hw.le)
  simp only [segIndex, specSegIdx]
  split_ifs with hcl
  · rw [min_eq_right (by omega : sc.toNat - 1 ≤ (goTrunc (ts / w)).toNat)]
    omega
  · rw [min_eq_left (by omega : (goTrunc (ts / w)).toNat ≤ sc.toNat - 1)]
    omega

lemma selectMain_eq_spec (kept rest : List Scene) (sc : ℤ) (d : ℚ)
    (hsc : 1 ≤ sc) (hd : 0 < d) (hts : ∀ s ∈ rest, 0 ≤ s.timestamp) :
    selectMain kept rest sc d =
      some (selectSpec
        (fun mid w seg => seg.argmax (fun s => max (combinedScore mid w s) (-1)))
        kept rest sc d) := by
  have hw : 0 < d / (sc : ℚ) := div_pos hd (by exact_mod_cast hsc)
  unfold selectMain selectSpec
  rw [if_neg (by omega : ¬ sc < 0)]
  have hall : rest.all (fun s => 0 ≤ segIndex sc (d / (sc : ℚ)) s.timestamp) = true := by
    rw [List.all_eq_true]
    intro s hs
    have hraw : 0 ≤ goTrunc (s.timestamp / (d / (sc : ℚ))) :=
      goTrunc_nonneg (div_nonneg (hts s hs) hw.le)
    simp only [segIndex, decide_eq_true_eq]
    split_ifs with hcl
    · omega
    · exact hraw
  rw [if_pos hall]
  have hfm : (List.range sc.toNat).filterMap (fun (i : ℕ) =>
      bestInSegment ((i : ℚ) * (d / (sc : ℚ)) + (d / (sc : ℚ)) / 2) (d / (sc : ℚ))
        (rest.filter (fun s => segIndex sc (d / (sc : ℚ)) s.timestamp = (i : ℤ))))
      = (List.range sc.toNat).filterMap (fun (i : ℕ) =>
        (rest.filter (fun s => specSegIdx sc (d / (sc : ℚ)) s.timestamp = i)).argmax
          (fun s => max (combinedScore
            ((i : ℚ) * (d / (sc : ℚ)) + (d / (sc : ℚ)) / 2) (d / (sc : ℚ)) s) (-1))) := by
    apply List.filterMap_congr
    intro i _
    have hfl : rest.filter (fun s => segIndex sc (d / (sc : ℚ)) s.timestamp = (i : ℤ))
        = rest.filter (fun s => specSegIdx sc (d / (sc : ℚ)) s.timestamp = i) := by
      apply List.filter_congr
      intro s hs
      exact decide_eq_decide.mpr (segIndex_eq_spec_iff i hsc hw (hts s hs))
    rw [bestInSegment_eq_argmax, hfl]
  rw [hfm]

/-- C6 (amended): for non-negative candidate timestamps and positive duration,
`intelligentFiltering` behaves exactly as the claim words it except for the
per-segment pick rule: the selector seeds its best-score tracker at `-1`, so
the picked candidate maximizes the combined score floored at `-1` — a segment
whose candidates all score at most `-1` contributes its first candidate rather
than the combined-score maximizer. -/
theorem c6_filtering_amended (md : ℚ) (scenes : List Scene) (d : ℚ)
    (hts : ∀ s ∈ scenes, 0 ≤ s.timestamp) (hd : 0 < d) :
    intelligentFiltering md scenes d =
      some (intelligentFilteringSpecFloored md scenes d) := by
  have hc3 := three_le_chapterCountFor d
  unfold intelligentFiltering intelligentFilteringSpecFloored intelligentFilteringSpecWith
  by_cases hemp : scenes = []
  · subst hemp
    rw [if_pos rfl]
    simp only [List.filter_nil, List.length_nil, Nat.cast_zero]
    rw [if_pos (by omega : (0:ℤ) ≤ chapterCountFor d * 2)]
  · rw [if_neg hemp]
    by_cases hbig : chapterCountFor d * 2 <
        ((scenes.filter (fun s => md ≤ s.timestamp)).length : ℤ)
    · rw [if_pos hbig,
        if_neg (by omega : ¬ ((scenes.filter (fun s => md ≤ s.timestamp)).length : ℤ) ≤
          chapterCountFor d * 2)]
      unfold selectRepresentativeScenes
      rw [if_neg (by omega : ¬ ((scenes.filter (fun s => md ≤ s.timestamp)).length : ℤ) ≤
        chapterCountFor d)]
      cases hfc : scenes.filter (fun s => md ≤ s.timestamp) with
      | nil =>
        rw [hfc] at hbig
        simp only [List.length_nil, Nat.cast_zero] at hbig
        omega
      | cons s0 tail =>
        have hts' : ∀ s ∈ s0 :: tail, 0 ≤ s.timestamp := by
          intro s hs
          rw [← hfc] at hs
          exact hts s (List.mem_filter.mp hs).1
        show (if s0.timestamp < 1 then
            selectMain [s0] tail (chapterCountFor d - 1) d
          else selectMain [] (s0 :: tail) (chapterCountFor d) d)
          = some (if s0.timestamp < 1 then
              selectSpec (fun mid w seg =>
                seg.argmax (fun s => max (combinedScore mid w s) (-1)))
                [s0] tail (chapterCountFor d - 1) d
            else
              selectSpec (fun mid w seg =>
                seg.argmax (fun s => max (combinedScore mid w s) (-1)))
                [] (s0 :: tail) (chapterCountFor d) d)
        by_cases hz : s0.timestamp < 1
        · rw [if_pos hz, if_pos hz]
          exact selectMain_eq_spec [s0] tail (chapterCountFor d - 1) d (by omega) hd
            (fun s hs => hts' s (List.mem_cons_of_mem s0 hs))
        · rw [if_neg hz, if_neg hz]
          exact selectMain_eq_spec [] (s0 :: tail) (chapterCountFor d) d (by omega) hd hts'
    · rw [if_neg hbig, if_pos (by omega :
        ((scenes.filter (fun s => md ≤ s.timestamp)).length : ℤ) ≤ chapterCountFor d * 2)]

theorem c6_filtering_amended_witness :
    intelligentFiltering 0 [Scene.mk 10 0 (1/2)] 100 =
      some (intelligentFilteringSpecFloored 0 [Scene.mk 10 0 (1/2)] 100) :=
  c6_filtering_amended 0 [Scene.mk 10 0 (1/2)] 100
    (by
      intro s hs
      rw [List.mem_singleton] at hs
      rw [hs]
      show (0:ℚ) ≤ 10
      norm_num)
    (by norm_num)

lemma c6_source_eval :
    intelligentFiltering 0
      [Scene.mk (1/2) 0 1, Scene.mk 10 0 (1/2), Scene.mk 20 0 (3/5), Scene.mk 30 0 (1/2),
        Scene.mk 40 0 (7/10), Scene.mk 5000 0 1, Scene.mk 5100 0 (1/10)] 100 =
      some [Scene.mk (1/2) 0 1, Scene.mk 40 0 (7/10), Scene.mk 5000 0 1] := by
  have hcnt : chapterCountFor (100:ℚ) = 3 := by
    unfold chapterCountFor
    rw [if_pos (by norm_num : (100:ℚ) < 300)]
  have hfilt : [Scene.mk (1/2) 0 1, Scene.mk 10 0 (1/2), Scene.mk 20 0 (3/5),
      Scene.mk 30 0 (1/2), Scene.mk 40 0 (7/10), Scene.mk 5000 0 1,
      Scene.mk 5100 0 (1/10)].filter (fun s => (0:ℚ) ≤ s.timestamp) =
      [Scene.mk (1/2) 0 1, Scene.mk 10 0 (1/2), Scene.mk 20 0 (3/5), Scene.mk 30 0 (1/2),
        Scene.mk 40 0 (7/10), Scene.mk 5000 0 1, Scene.mk 5100 0 (1/10)] := by
    norm_num [List.filter]
  unfold intelligentFiltering
  rw [if_neg (List.cons_ne_nil _ _), hfilt, hcnt]
  rw [if_pos (by norm_num : (3:ℤ) * 2 <
    (([Scene.mk (1/2) 0 1, Scene.mk 10 0 (1/2), Scene.mk 20 0 (3/5), Scene.mk 30 0 (1/2),
      Scene.mk 40 0 (7/10), Scene.mk 5000 0 1,
      Scene.mk 5100 0 (1/10)].length : ℕ) : ℤ))]
  unfold selectRepresentativeScenes
  rw [if_neg (by norm_num : ¬
    ((([Scene.mk (1/2) 0 1, Scene.mk 10 0 (1/2), Scene.mk 20 0 (3/5), Scene.mk 30 0 (1/2),
      Scene.mk 40 0 (7/10), Scene.mk 5000 0 1,
      Scene.mk 5100 0 (1/10)].length : ℕ) : ℤ) ≤ 3))]
  show (if (Scene.mk (1/2) 0 1).timestamp < 1 then
      selectMain [Scene.mk (1/2) 0 1]
        [Scene.mk 10 0 (1/2), Scene.mk 20 0 (3/5), Scene.mk 30 0 (1/2),
          Scene.mk 40 0 (7/10), Scene.mk 5000 0 1, Scene.mk 5100 0 (1/10)] (3 - 1) 100
    else
      selectMain []
        [Scene.mk (1/2) 0 1, Scene.mk 10 0 (1/2), Scene.mk 20 0 (3/5), Scene.mk 30 0 (1/2),
          Scene.mk 40 0 (7/10), Scene.mk 5000 0 1, Scene.mk 5100 0 (1/10)] 3 100) = _
  rw [if_pos (by norm_num : (Scene.mk (1/2) 0 1).timestamp < (1:ℚ))]
  rw [show (3:ℤ) - 1 = 2 from rfl]
  unfold selectMain
  rw [if_neg (by decide : ¬ (2:ℤ) < 0)]
  rw [show (100:ℚ) / ((2:ℤ) : ℚ) = 50 from by norm_num]
  have hidx10 : segIndex 2 50 (Scene.mk 10 0 (1/2)).timestamp = 0 := by
    unfold segIndex goTrunc
    rw [if_neg (by norm_num : ¬ ((Scene.mk 10 0 (1/2)).timestamp / 50 < 0))]
    have h : ⌊(Scene.mk 10 0 (1/2)).timestamp / 50⌋ = 0 := by norm_num
    rw [h]
    norm_num
  have hidx20 : segIndex 2 50 (Scene.mk 20 0 (3/5)).timestamp = 0 := by
    unfold segIndex goTrunc
    rw [if_neg (by norm_num : ¬ ((Scene.mk 20 0 (3/5)).timestamp / 50 < 0))]
    have h : ⌊(Scene.mk 20 0 (3/5)).timestamp / 50⌋ = 0 := by norm_num
    rw [h]
    norm_num
  have hidx30 : segIndex 2 50 (Scene.mk 30 0 (1/2)).timestamp = 0 := by
    unfold segIndex goTrunc
    rw [if_neg (by norm_num : ¬ ((Scene.mk 30 0 (1/2)).timestamp / 50 < 0))]
    have h : ⌊(Scene.mk 30 0 (1/2)).timestamp / 50⌋ = 0 := by norm_num
    rw [h]
    norm_num
  have hidx40 : segIndex 2 50 (Scene.mk 40 0 (7/10)).timestamp = 0 := by
    unfold segIndex goTrunc
    rw [if_neg (by norm_num : ¬ ((Scene.mk 40 0 (7/10)).timestamp / 50 < 0))]
    have h : ⌊(Scene.mk 40 0 (7/10)).timestamp / 50⌋ = 0 := by norm_num
    rw [h]
    norm_num
  have hidx5000 : segIndex 2 50 (Scene.mk 5000 0 1).timestamp = 1 := by
    unfold segIndex goTrunc
    rw [if_neg (by norm_num : ¬ ((Scene.mk 5000 0 1).timestamp / 50 < 0))]
    have h : ⌊(Scene.mk 5000 0 1).timestamp / 50⌋ = 100 := by norm_num
    rw [h]
    norm_num
  have hidx5100 : segIndex 2 50 (Scene.mk 5100 0 (1/10)).timestamp = 1 := by
    unfold segIndex goTrunc
    rw [if_neg (by norm_num : ¬ ((Scene.mk 5100 0 (1/10)).timestamp / 50 < 0))]
    have h : ⌊(Scene.mk 5100 0 (1/10)).timestamp / 50⌋ = 102 := by norm_num
    rw [h]
    norm_num
  have hall : ([Scene.mk 10 0 (1/2), Scene.mk 20 0 (3/5), Scene.mk 30 0 (1/2),
      Scene.mk 40 0 (7/10), Scene.mk 5000 0 1, Scene.mk 5100 0 (1/10)].all
      (fun s => 0 ≤ segIndex 2 50 s.timestamp)) = true := by
    simp only [List.all_cons, List.all_nil, hidx10, hidx20, hidx30, hidx40, hidx5000, hidx5100]
    norm_num
  rw [if_pos hall]
  rw [show List.range (2:ℤ).toNat = [0, 1] from rfl]
  simp only [List.filterMap_cons, List.filterMap_nil]
  have hfil0 : ([Scene.mk 10 0 (1/2), Scene.mk 20 0 (3/5), Scene.mk 30 0 (1/2),
      Scene.mk 40 0 (7/10), Scene.mk 5000 0 1, Scene.mk 5100 0 (1/10)].filter
      (fun s => segIndex 2 50 s.timestamp = ((0:ℕ) : ℤ))) =
      [Scene.mk 10 0 (1/2), Scene.mk 20 0 (3/5), Scene.mk 30 0 (1/2),
        Scene.mk 40 0 (7/10)] := by
    simp only [List.filter, hidx10, hidx20, hidx30, hidx40, hidx5000, hidx5100]
    norm_num
  have hfil1 : ([Scene.mk 10 0 (1/2), Scene.mk 20 0 (3/5), Scene.mk 30 0 (1/2),
      Scene.mk 40 0 (7/10), Scene.mk 5000 0 1, Scene.mk 5100 0 (1/10)].filter
      (fun s => segIndex 2 50 s.timestamp = ((1:ℕ) : ℤ))) =
      [Scene.mk 5000 0 1, Scene.mk 5100 0 (1/10)] := by
    simp only [List.filter, hidx10, hidx20, hidx30, hidx40, hidx5000, hidx5100]
    norm_num
  have hc10 : combinedScore (((0:ℕ) : ℚ) * 50 + 50 / 2) 50 (Scene.mk 10 0 (1/2)) =
      17/40 := by
    unfold combinedScore
    norm_num
  have hc20 : combinedScore (((0:ℕ) : ℚ) * 50 + 50 / 2) 50 (Scene.mk 20 0 (3/5)) =
      57/100 := by
    unfold combinedScore
    norm_num
  have hc30 : combinedScore (((0:ℕ) : ℚ) * 50 + 50 / 2) 50 (Scene.mk 30 0 (1/2)) =
      19/40 := by
    unfold combinedScore
    norm_num
  have hc40 : combinedScore (((0:ℕ) : ℚ) * 50 + 50 / 2) 50 (Scene.mk 40 0 (7/10)) =
      119/200 := by
    unfold combinedScore
    norm_num
  have hc5000 : combinedScore (((1:ℕ) : ℚ) * 50 + 50 / 2) 50 (Scene.mk 5000 0 1) =
      -193/4 := by
    unfold combinedScore
    norm_num
  have hc5100 : combinedScore (((1:ℕ) : ℚ) * 50 + 50 / 2) 50 (Scene.mk 5100 0 (1/10)) =
      -197/40 := by
    unfold combinedScore
    norm_num
  have hbest0 : bestInSegment (((0:ℕ) : ℚ) * 50 + 50 / 2) 50
      [Scene.mk 10 0 (1/2), Scene.mk 20 0 (3/5), Scene.mk 30 0 (1/2),
        Scene.mk 40 0 (7/10)] = some (Scene.mk 40 0 (7/10)) := by
    unfold bestInSegment
    simp only [List.foldl_cons, List.foldl_nil, hc10, hc20, hc30, hc40]
    rw [if_pos (by norm_num : (-1:ℚ) < 17/40),
      if_pos (by norm_num : (17:ℚ)/40 < 57/100),
      if_neg (by norm_num : ¬ (57:ℚ)/100 < 19/40),
      if_pos (by norm_num : (57:ℚ)/100 < 119/200)]
  have hbest1 : bestInSegment (((1:ℕ) : ℚ) * 50 + 50 / 2) 50
      [Scene.mk 5000 0 1, Scene.mk 5100 0 (1/10)] = some (Scene.mk 5000 0 1) := by
    unfold bestInSegment
    simp only [List.foldl_cons, List.foldl_nil, hc5000, hc5100]
    rw [if_neg (by norm_num : ¬ (-1:ℚ) < -193/4),
      if_neg (by norm_num : ¬ (-1:ℚ) < -197/40)]
  rw [hfil0, hbest0, hfil1, hbest1]
  have h1 : sceneLE (Scene.mk 40 0 (7/10)) (Scene.mk 5000 0 1) := by
    show (40:ℚ) ≤ 5000
    norm_num
  have h2 : sceneLE (Scene.mk (1/2) 0 1) (Scene.mk 40 0 (7/10)) := by
    show (1/2:ℚ) ≤ 40
    norm_num
  have hins1 : List.orderedInsert sceneLE (Scene.mk 40 0 (7/10)) [Scene.mk 5000 0 1] =
      [Scene.mk 40 0 (7/10), Scene.mk 5000 0 1] := by
    simp only [List.orderedInsert]
    rw [if_pos h1]
  have hins2 : List.orderedInsert sceneLE (Scene.mk (1/2) 0 1)
      [Scene.mk 40 0 (7/10), Scene.mk 5000 0 1] =
      [Scene.mk (1/2) 0 1, Scene.mk 40 0 (7/10), Scene.mk 5000 0 1] := by
    simp only [List.orderedInsert]
    rw [if_pos h2]
  have hins0 : List.orderedInsert sceneLE (Scene.mk 5000 0 1) ([] : List Scene) =
      [Scene.mk 5000 0 1] := rfl
  simp only [List.singleton_append, sortScenes, List.insertionSort, hins0, hins1, hins2]

lemma c6_spec_eval :
    intelligentFilteringSpec 0
      [Scene.mk (1/2) 0 1, Scene.mk 10 0 (1/2), Scene.mk 20 0 (3/5), Scene.mk 30 0 (1/2),
        Scene.mk 40 0 (7/10), Scene.mk 5000 0 1, Scene.mk 5100 0 (1/10)] 100 =
      [Scene.mk (1/2) 0 1, Scene.mk 40 0 (7/10), Scene.mk 5100 0 (1/10)] := by
  have hcnt : chapterCountFor (100:ℚ) = 3 := by
    unfold chapterCountFor
    rw [if_pos (by norm_num : (100:ℚ) < 300)]
  have hfilt : [Scene.mk (1/2) 0 1, Scene.mk 10 0 (1/2), Scene.mk 20 0 (3/5),
      Scene.mk 30 0 (1/2), Scene.mk 40 0 (7/10), Scene.mk 5000 0 1,
      Scene.mk 5100 0 (1/10)].filter (fun s => (0:ℚ) ≤ s.timestamp) =
      [Scene.mk (1/2) 0 1, Scene.mk 10 0 (1/2), Scene.mk 20 0 (3/5), Scene.mk 30 0 (1/2),
        Scene.mk 40 0 (7/10), Scene.mk 5000 0 1, Scene.mk 5100 0 (1/10)] := by
    norm_num [List.filter]
  unfold intelligentFilteringSpec intelligentFilteringSpecWith
  rw [hfilt, hcnt]
  rw [if_neg (by norm_num : ¬
    ((([Scene.mk (1/2) 0 1, Scene.mk 10 0 (1/2), Scene.mk 20 0 (3/5), Scene.mk 30 0 (1/2),
      Scene.mk 40 0 (7/10), Scene.mk 5000 0 1,
      Scene.mk 5100 0 (1/10)].length : ℕ) : ℤ) ≤ 3 * 2))]
  show (if (Scene.mk (1/2) 0 1).timestamp < 1 then
      selectSpec (fun mid w seg => seg.argmax (combinedScore mid w)) [Scene.mk (1/2) 0 1]
        [Scene.mk 10 0 (1/2), Scene.mk 20 0 (3/5), Scene.mk 30 0 (1/2),
          Scene.mk 40 0 (7/10), Scene.mk 5000 0 1, Scene.mk 5100 0 (1/10)] (3 - 1) 100
    else
      selectSpec (fun mid w seg => seg.argmax (combinedScore mid w)) []
        [Scene.mk (1/2) 0 1, Scene.mk 10 0 (1/2), Scene.mk 20 0 (3/5), Scene.mk 30 0 (1/2),
          Scene.mk 40 0 (7/10), Scene.mk 5000 0 1, Scene.mk 5100 0 (1/10)] 3 100) = _
  rw [if_pos (by norm_num : (Scene.mk (1/2) 0 1).timestamp < (1:ℚ))]
  rw [show (3:ℤ) - 1 = 2 from rfl]
  unfold selectSpec
  rw [show (100:ℚ) / ((2:ℤ) : ℚ) = 50 from by norm_num]
  rw [show List.range (2:ℤ).toNat = [0, 1] from rfl]
  simp only [List.filterMap_cons, List.filterMap_nil]
  have hsx10 : specSegIdx 2 50 (Scene.mk 10 0 (1/2)).timestamp = 0 := by
    unfold specSegIdx goTrunc
    rw [if_neg (by norm_num : ¬ ((Scene.mk 10 0 (1/2)).timestamp / 50 < 0))]
    have h : ⌊(Scene.mk 10 0 (1/2)).timestamp / 50⌋ = 0 := by norm_num
    rw [h]
    decide
  have hsx20 : specSegIdx 2 50 (Scene.mk 20 0 (3/5)).timestamp = 0 := by
    unfold specSegIdx goTrunc
    rw [if_neg (by norm_num : ¬ ((Scene.mk 20 0 (3/5)).timestamp / 50 < 0))]
    have h : ⌊(Scene.mk 20 0 (3/5)).timestamp / 50⌋ = 0 := by norm_num
    rw [h]
    decide
  have hsx30 : specSegIdx 2 50 (Scene.mk 30 0 (1/2)).timestamp = 0 := by
    unfold specSegIdx goTrunc
    rw [if_neg (by norm_num : ¬ ((Scene.mk 30 0 (1/2)).timestamp / 50 < 0))]
    have h : ⌊(Scene.mk 30 0 (1/2)).timestamp / 50⌋ = 0 := by norm_num
    rw [h]
    decide
  have hsx40 : specSegIdx 2 50 (Scene.mk 40 0 (7/10)).timestamp = 0 := by
    unfold specSegIdx goTrunc
    rw [if_neg (by norm_num : ¬ ((Scene.mk 40 0 (7/10)).timestamp / 50 < 0))]
    have h : ⌊(Scene.mk 40 0 (7/10)).timestamp / 50⌋ = 0 := by norm_num
    rw [h]
    decide
  have hsx5000 : specSegIdx 2 50 (Scene.mk 5000 0 1).timestamp = 1 := by
    unfold specSegIdx goTrunc
    rw [if_neg (by norm_num : ¬ ((Scene.mk 5000 0 1).timestamp / 50 < 0))]
    have h : ⌊(Scene.mk 5000 0 1).timestamp / 50⌋ = 100 := by norm_num
    rw [h]
    decide
  have hsx5100 : specSegIdx 2 50 (Scene.mk 5100 0 (1/10)).timestamp = 1 := by
    unfold specSegIdx goTrunc
    rw [if_neg (by norm_num : ¬ ((Scene.mk 5100 0 (1/10)).timestamp / 50 < 0))]
    have h : ⌊(Scene.mk 5100 0 (1/10)).timestamp / 50⌋ = 102 := by norm_num
    rw [h]
    decide
  have hsfil0 : ([Scene.mk 10 0 (1/2), Scene.mk 20 0 (3/5), Scene.mk 30 0 (1/2),
      Scene.mk 40 0 (7/10), Scene.mk 5000 0 1, Scene.mk 5100 0 (1/10)].filter
      (fun s => specSegIdx 2 50 s.timestamp = 0)) =
      [Scene.mk 10 0 (1/2), Scene.mk 20 0 (3/5), Scene.mk 30 0 (1/2),
        Scene.mk 40 0 (7/10)] := by
    simp only [List.filter, hsx10, hsx20, hsx30, hsx40, hsx5000, hsx5100]
    norm_num
  have hsfil1 : ([Scene.mk 10 0 (1/2), Scene.mk 20 0 (3/5), Scene.mk 30 0 (1/2),
      Scene.mk 40 0 (7/10), Scene.mk 5000 0 1, Scene.mk 5100 0 (1/10)].filter
      (fun s => specSegIdx 2 50 s.timestamp = 1)) =
      [Scene.mk 5000 0 1, Scene.mk 5100 0 (1/10)] := by
    simp only [List.filter, hsx10, hsx20, hsx30, hsx40, hsx5000, hsx5100]
    norm_num
  have e1 : List.argmax (combinedScore (((0:ℕ) : ℚ) * 50 + 50 / 2) 50)
      [Scene.mk 40 0 (7/10)] = some (Scene.mk 40 0 (7/10)) :=
    List.argmax_singleton
  have e2 : List.argmax (combinedScore (((0:ℕ) : ℚ) * 50 + 50 / 2) 50)
      [Scene.mk 30 0 (1/2), Scene.mk 40 0 (7/10)] = some (Scene.mk 40 0 (7/10)) := by
    rw [List.argmax_cons, e1]
    show (if combinedScore (((0:ℕ) : ℚ) * 50 + 50 / 2) 50 (Scene.mk 30 0 (1/2)) <
        combinedScore (((0:ℕ) : ℚ) * 50 + 50 / 2) 50 (Scene.mk 40 0 (7/10)) then
      some (Scene.mk 40 0 (7/10)) else some (Scene.mk 30 0 (1/2))) =
      some (Scene.mk 40 0 (7/10))
    rw [if_pos (by unfold combinedScore; norm_num)]
  have e3 : List.argmax (combinedScore (((0:ℕ) : ℚ) * 50 + 50 / 2) 50)
      [Scene.mk 20 0 (3/5), Scene.mk 30 0 (1/2), Scene.mk 40 0 (7/10)] =
      some (Scene.mk 40 0 (7/10)) := by
    rw [List.argmax_cons, e2]
    show (if combinedScore (((0:ℕ) : ℚ) * 50 + 50 / 2) 50 (Scene.mk 20 0 (3/5)) <
        combinedScore (((0:ℕ) : ℚ) * 50 + 50 / 2) 50 (Scene.mk 40 0 (7/10)) then
      some (Scene.mk 40 0 (7/10)) else some (Scene.mk 20 0 (3/5))) =
      some (Scene.mk 40 0 (7/10))
    rw [if_pos (by unfold combinedScore; norm_num)]
  have harg0 : List.argmax (combinedScore (((0:ℕ) : ℚ) * 50 + 50 / 2) 50)
      [Scene.mk 10 0 (1/2), Scene.mk 20 0 (3/5), Scene.mk 30 0 (1/2),
        Scene.mk 40 0 (7/10)] = some (Scene.mk 40 0 (7/10)) := by
    rw [List.argmax_cons, e3]
    show (if combinedScore (((0:ℕ) : ℚ) * 50 + 50 / 2) 50 (Scene.mk 10 0 (1/2)) <
        combinedScore (((0:ℕ) : ℚ) * 50 + 50 / 2) 50 (Scene.mk 40 0 (7/10)) then
      some (Scene.mk 40 0 (7/10)) else some (Scene.mk 10 0 (1/2))) =
      some (Scene.mk 40 0 (7/10))
    rw [if_pos (by unfold combinedScore; norm_num)]
  have e4 : List.argmax (combinedScore (((1:ℕ) : ℚ) * 50 + 50 / 2) 50)
      [Scene.mk 5100 0 (1/10)] = some (Scene.mk 5100 0 (1/10)) :=
    List.argmax_singleton
  have harg1 : List.argmax (combinedScore (((1:ℕ) : ℚ) * 50 + 50 / 2) 50)
      [Scene.mk 5000 0 1, Scene.mk 5100 0 (1/10)] = some (Scene.mk 5100 0 (1/10)) := by
    rw [List.argmax_cons, e4]
    show (if combinedScore (((1:ℕ) : ℚ) * 50 + 50 / 2) 50 (Scene.mk 5000 0 1) <
        combinedScore (((1:ℕ) : ℚ) * 50 + 50 / 2) 50 (Scene.mk 5100 0 (1/10)) then
      some (Scene.mk 5100 0 (1/10)) else some (Scene.mk 5000 0 1)) =
      some (Scene.mk 5100 0 (1/10))
    rw [if_pos (by unfold combinedScore; norm_num)]
  rw [hsfil0, harg0, hsfil1, harg1]
  have h1 : sceneLE (Scene.mk 40 0 (7/10)) (Scene.mk 5100 0 (1/10)) := by
    show (40:ℚ) ≤ 5100
    norm_num
  have h2 : sceneLE (Scene.mk (1/2) 0 1) (Scene.mk 40 0 (7/10)) := by
    show (1/2:ℚ) ≤ 40
    norm_num
  have hins0 : List.orderedInsert sceneLE (Scene.mk 5100 0 (1/10)) ([] : List Scene) =
      [Scene.mk 5100 0 (1/10)] := rfl
  have hins1 : List.orderedInsert sceneLE (Scene.mk 40 0 (7/10)) [Scene.mk 5100 0 (1/10)] =
      [Scene.mk 40 0 (7/10), Scene.mk 5100 0 (1/10)] := by
    simp only [List.orderedInsert]
    rw [if_pos h1]
  have hins2 : List.orderedInsert sceneLE (Scene.mk (1/2) 0 1)
      [Scene.mk 40 0 (7/10), Scene.mk 5100 0 (1/10)] =
      [Scene.mk (1/2) 0 1, Scene.mk 40 0 (7/10), Scene.mk 5100 0 (1/10)] := by
    simp only [List.orderedInsert]
    rw [if_pos h2]
  simp only [List.singleton_append, sortScenes, List.insertionSort, hins0, hins1, hins2]

/-- C6 counterexample: on seven candidates over a 100s video the first-second
candidate is kept, the tail splits into two 50s segments, and the overflow
segment's two candidates both have combined score below `-1` (`-193/4` and
`-197/40`): the code keeps the segment's first candidate (timestamp 5000)
because its best-score tracker starts at `-1`, while the claim's pick rule —
the candidate maximizing the combined score — selects timestamp 5100. -/
theorem c6_filtering_counterexample :
    intelligentFiltering 0
      [Scene.mk (1/2) 0 1, Scene.mk 10 0 (1/2), Scene.mk 20 0 (3/5), Scene.mk 30 0 (1/2),
        Scene.mk 40 0 (7/10), Scene.mk 5000 0 1, Scene.mk 5100 0 (1/10)] 100 =
      some [Scene.mk (1/2) 0 1, Scene.mk 40 0 (7/10), Scene.mk 5000 0 1] ∧
    intelligentFilteringSpec 0
      [Scene.mk (1/2) 0 1, Scene.mk 10 0 (1/2), Scene.mk 20 0 (3/5), Scene.mk 30 0 (1/2),
        Scene.mk 40 0 (7/10), Scene.mk 5000 0 1, Scene.mk 5100 0 (1/10)] 100 =
      [Scene.mk (1/2) 0 1, Scene.mk 40 0 (7/10), Scene.mk 5100 0 (1/10)] ∧
    intelligentFiltering 0
      [Scene.mk (1/2) 0 1, Scene.mk 10 0 (1/2), Scene.mk 20 0 (3/5), Scene.mk 30 0 (1/2),
        Scene.mk 40 0 (7/10), Scene.mk 5000 0 1, Scene.mk 5100 0 (1/10)] 100 ≠
      some (intelligentFilteringSpec 0
        [Scene.mk (1/2) 0 1, Scene.mk 10 0 (1/2), Scene.mk 20 0 (3/5), Scene.mk 30 0 (1/2),
          Scene.mk 40 0 (7/10), Scene.mk 5000 0 1, Scene.mk 5100 0 (1/10)] 100) := by
  refine ⟨c6_source_eval, c6_spec_eval, ?_⟩
  intro h
  rw [c6_source_eval, c6_spec_eval] at h
  simp only [Option.some.injEq, List.cons.injEq, Scene.mk.injEq] at h
  exact absurd h.2.2.1.1 (by norm_num)

end CMGen
